import Mathlib

/-!
Verification development for the jellyfin-db-sync event-propagation pipeline.

Shallow embedding of:
  * `src/jellyfin_db_sync/models.py`   (enums, webhook payload, pending-event rows)
  * `src/jellyfin_db_sync/config.py`   (configuration and path-policy selection)
  * `src/jellyfin_db_sync/database.py` (the durable queue and user-mapping store)
  * `src/jellyfin_db_sync/sync/engine.py` (parser, dispatcher, cooldown set,
    smart-sync comparison, item-not-found handling)

SQLite tables are modelled as Lean lists of rows; `datetime` values are modelled
as integer timestamps (seconds); Python dictionaries holding optional fields are
modelled as structures of `Option` fields.  Python truthiness on optional
strings / ints is modelled explicitly (`optStrTruthy`, `optIntTruthy`).
-/

namespace JellyfinDbSync

/-! ## Python-string helpers

The built-in Lean `String.startsWith`/`endsWith`/`take` do not reduce inside the
kernel, so the corresponding Python operations are modelled over `String.data`.
`strGe` models the Python `>=` on strings (lexicographic by code point). -/

def strStartsWith (s p : String) : Bool :=
  p.data.isPrefixOf s.data

def strEndsWith (s p : String) : Bool :=
  p.data.isSuffixOf s.data

def strTake (s : String) (n : Nat) : String :=
  ⟨s.data.take n⟩

def strLtAux : List Char → List Char → Bool
  | [], [] => false
  | [], _ :: _ => true
  | _ :: _, [] => false
  | a :: as, b :: bs =>
    if a.val < b.val then true else if b.val < a.val then false else strLtAux as bs

def strGe (a b : String) : Bool :=
  !(strLtAux a.data b.data)

/-- Python truthiness of an optional string: `None` and `""` are falsy. -/
def optStrTruthy : Option String → Bool
  | none => false
  | some s => !(s == "")

/-- Python truthiness of an optional int: `None` and `0` are falsy. -/
def optIntTruthy : Option Int → Bool
  | none => false
  | some n => !(n == 0)

/-- Python `str(bool)`: `"True"` / `"False"`. -/
def pyBoolStr : Bool → String
  | true => "True"
  | false => "False"

/-- Python `str` of an optional bool as it appears in f-strings. -/
def pyOptBoolStr : Option Bool → String
  | none => "None"
  | some b => pyBoolStr b

/-- Python `str` of an optional int as it appears in f-strings. -/
def pyOptIntStr : Option Int → String
  | none => "None"
  | some n => toString n

/-- A single-quote character, for building Python f-string messages. -/
def sq : String := String.singleton (Char.ofNat 39)

/-! ## models.py -/

/-- Modelled from the spec: `SyncEventType` in the checked-in `models.py` has
only `PROGRESS WATCHED FAVORITE RATING PLAYLIST`, but `sync/engine.py` also
references `LIKES PLAY_COUNT LAST_PLAYED AUDIO_STREAM SUBTITLE_STREAM`, which
are missing from `src/`; those five members are taken from spec §3
("Event Type enum"). -/
inductive SyncEventType where
  | progress
  | watched
  | favorite
  | rating
  | playlist
  | likes
  | play_count
  | last_played
  | audio_stream
  | subtitle_stream
deriving DecidableEq, Repr

/-- The `.value` string of each enum member (the first five from `models.py`,
the rest following the same naming convention). -/
def SyncEventType.value : SyncEventType → String
  | .progress => "progress"
  | .watched => "watched"
  | .favorite => "favorite"
  | .rating => "rating"
  | .playlist => "playlist"
  | .likes => "likes"
  | .play_count => "play_count"
  | .last_played => "last_played"
  | .audio_stream => "audio_stream"
  | .subtitle_stream => "subtitle_stream"

/-- `PendingEventStatus` from `models.py`. -/
inductive PendingEventStatus where
  | pending
  | processing
  | failed
  | waiting_for_item
deriving DecidableEq, Repr

/-- Modelled from the spec: the base fields mirror `WebhookPayload` in the
checked-in `models.py`; the user-data fields `is_played is_favorite likes
play_count last_played_date audio_stream_index subtitle_stream_index
save_reason` are referenced by `sync/engine.py` but missing from the
checked-in `models.py`, so they follow spec §6 (inbound webhook envelope,
optional fields carried as explicit absent-vs-false). -/
structure WebhookPayload where
  event : String := ""
  server_id : String := ""
  server_name : String := ""
  user_id : String := ""
  username : String := ""
  item_id : String := ""
  item_name : String := ""
  item_type : String := ""
  item_path : Option String := none
  playback_position_ticks : Option Int := none
  playback_position : Option String := none
  played_to_completion : Bool := false
  is_played : Option Bool := none
  is_favorite : Option Bool := none
  likes : Option Bool := none
  play_count : Option Int := none
  last_played_date : Option String := none
  audio_stream_index : Option Int := none
  subtitle_stream_index : Option Int := none
  save_reason : Option String := none
  provider_imdb : Option String := none
  provider_tmdb : Option String := none
  provider_tvdb : Option String := none
deriving DecidableEq, Repr

/-- The event-data dictionary built by `_parse_webhook_to_event_data` and read
back (after JSON round-trip) by `_execute_sync`; Python `dict.get` on a missing
key is `none`.  `rating` is a float in the source; modelled as `Int`. -/
structure EventData where
  is_played : Option Bool := none
  is_favorite : Option Bool := none
  likes : Option Bool := none
  play_count : Option Int := none
  last_played_date : Option String := none
  audio_stream_index : Option Int := none
  subtitle_stream_index : Option Int := none
  position_ticks : Option Int := none
  rating : Option Int := none
deriving DecidableEq, Repr

/-- One element of the list returned by `_parse_webhook_to_event_data`. -/
structure EventRecord where
  event_type : SyncEventType
  data : EventData
deriving DecidableEq, Repr

/-- A row of the `user_mappings` table. -/
structure UserMappingRow where
  username : String
  server_name : String
  jellyfin_user_id : String
  created_at : Int
  updated_at : Int
deriving DecidableEq, Repr

/-- A row of the `sync_log` table. -/
structure SyncLogEntry where
  event_type : String
  source_server : String
  target_server : String
  username : String
  item_id : Option String
  item_name : Option String
  synced_value : Option String
  success : Bool
  message : String
  created_at : Int
deriving DecidableEq, Repr

/-- A row of the `pending_events` table (the WAL record). -/
structure PendingRow where
  id : Nat
  event_type : SyncEventType
  source_server : String
  target_server : String
  username : String
  user_id : String
  item_id : String
  item_name : String
  item_path : Option String := none
  provider_imdb : Option String := none
  provider_tmdb : Option String := none
  provider_tvdb : Option String := none
  event_data : EventData := {}
  status : PendingEventStatus := .pending
  retry_count : Nat := 0
  max_retries : Nat := 5
  last_error : Option String := none
  item_not_found_count : Nat := 0
  item_not_found_max : Int := 0
  created_at : Int
  updated_at : Int
  next_retry_at : Option Int := none
deriving DecidableEq, Repr

/-! ## config.py -/

/-- `PathSyncPolicy` from `config.py`.  The source field `prefix` is renamed
`pathPrefix` (the original spelling is not usable as a Lean identifier here). -/
structure PathSyncPolicy where
  pathPrefix : String
  absent_retry_count : Int := 0
  retry_delay_seconds : Int := 300
deriving DecidableEq, Repr

/-- `SyncConfig` from `config.py` (the float field `worker_interval_seconds` is
omitted: no modelled operation reads it). -/
structure SyncConfig where
  playback_progress : Bool := true
  watched_status : Bool := true
  favorites : Bool := true
  ratings : Bool := true
  playlists : Bool := true
  likes : Bool := true
  play_count : Bool := true
  last_played_date : Bool := true
  audio_stream : Bool := true
  subtitle_stream : Bool := true
  progress_debounce_seconds : Int := 30
  max_retries : Nat := 5
  dry_run : Bool := false
deriving DecidableEq, Repr

/-- `ServerConfig` from `config.py`. -/
structure ServerConfig where
  name : String
  url : String := ""
  api_key : String := ""
  passwordless : Bool := false
deriving DecidableEq, Repr

/-- Root `Config` from `config.py` (components not used by the modelled
operations are omitted). -/
structure Config where
  servers : List ServerConfig := []
  sync : SyncConfig := {}
  path_sync_policy : List PathSyncPolicy := []
deriving DecidableEq, Repr

/-- `Config.get_server`. -/
def Config.getServer (c : Config) (name : String) : Option ServerConfig :=
  c.servers.find? (fun s => decide (s.name = name))

/-- `Config.get_other_servers`. -/
def Config.getOtherServers (c : Config) (exclude_name : String) : List ServerConfig :=
  c.servers.filter (fun s => !(decide (s.name = exclude_name)))

/-- The loop body of `Config.get_path_policy`: keep the policy whose matching
prefix is strictly longer than the running maximum. -/
def pathPolicyStep (p : String) (acc : Option PathSyncPolicy × Nat)
    (policy : PathSyncPolicy) : Option PathSyncPolicy × Nat :=
  if strStartsWith p policy.pathPrefix = true ∧ acc.2 < policy.pathPrefix.data.length
  then (some policy, policy.pathPrefix.data.length)
  else acc

/-- `Config.get_path_policy`: longest-prefix match, written exactly as the
source loop (a policy is selected only when `len(policy.prefix)` strictly
exceeds the running maximum, which starts at 0). -/
def Config.getPathPolicy (c : Config) (path : Option String) : Option PathSyncPolicy :=
  match path with
  | none => none
  | some p =>
    if p = "" then none
    else (c.path_sync_policy.foldl (pathPolicyStep p) ((none : Option PathSyncPolicy), 0)).1

/-! ## database.py (queue and stores as list-of-row state) -/

/-- The persistent state: the three tables and the AUTOINCREMENT counter. -/
structure DBState where
  user_mappings : List UserMappingRow := []
  sync_log : List SyncLogEntry := []
  pending_events : List PendingRow := []
  next_id : Nat := 1
deriving DecidableEq, Repr

def emptyDB : DBState := {}

/-- The SQL row condition `username = ? AND server_name = ?`.  SQLite compares
`TEXT` with the default BINARY collation, i.e. byte equality. -/
def userMappingPred (username server_name : String) (r : UserMappingRow) : Bool :=
  decide (r.username = username ∧ r.server_name = server_name)

/-- `Database.get_user_mapping`: `WHERE username = ? AND server_name = ?`. -/
def getUserMapping (username server_name : String) (db : DBState) : Option UserMappingRow :=
  db.user_mappings.find? (userMappingPred username server_name)

/-- `Database.upsert_user_mapping`: `INSERT ... ON CONFLICT(username,
server_name) DO UPDATE SET jellyfin_user_id = excluded.jellyfin_user_id`. -/
def upsertUserMapping (username server_name jellyfin_user_id : String) (now : Int)
    (db : DBState) : DBState :=
  { db with user_mappings :=
      if db.user_mappings.any (userMappingPred username server_name) then
        db.user_mappings.map (fun r =>
          if userMappingPred username server_name r then
            { r with jellyfin_user_id := jellyfin_user_id, updated_at := now }
          else r)
      else db.user_mappings ++ [⟨username, server_name, jellyfin_user_id, now, now⟩] }

/-- The SQL `status IN (pending, processing, waiting_for_item)` filter
used by `has_pending_event`. -/
def statusNonTerminal : PendingEventStatus → Bool
  | .pending => true
  | .processing => true
  | .waiting_for_item => true
  | .failed => false

/-- The row predicate of `Database.has_pending_event` (the dedup key plus the
non-terminal status filter). -/
def rowMatchesKey (event_type : SyncEventType) (target_server username item_id : String)
    (r : PendingRow) : Bool :=
  decide (r.event_type = event_type ∧ r.target_server = target_server ∧
    r.username = username ∧ r.item_id = item_id) && statusNonTerminal r.status

/-- `Database.has_pending_event`. -/
def hasPendingEvent (event_type : SyncEventType) (target_server username item_id : String)
    (db : DBState) : Bool :=
  db.pending_events.any (rowMatchesKey event_type target_server username item_id)

/-- `Database.add_pending_event`: inserts a fresh row with the column defaults
(status `pending`, `retry_count 0`, `max_retries 5`, counters 0). -/
def addPendingEvent (event_type : SyncEventType)
    (source_server target_server username user_id item_id item_name : String)
    (event_data : EventData)
    (item_path provider_imdb provider_tmdb provider_tvdb : Option String)
    (now : Int) (db : DBState) : DBState :=
  { db with
    pending_events := db.pending_events ++
      [{ id := db.next_id
         event_type := event_type
         source_server := source_server
         target_server := target_server
         username := username
         user_id := user_id
         item_id := item_id
         item_name := item_name
         item_path := item_path
         provider_imdb := provider_imdb
         provider_tmdb := provider_tmdb
         provider_tvdb := provider_tvdb
         event_data := event_data
         created_at := now
         updated_at := now }]
    next_id := db.next_id + 1 }

/-- `Database.mark_event_processing`. -/
def markEventProcessing (event_id : Nat) (now : Int) (db : DBState) : DBState :=
  { db with pending_events := db.pending_events.map (fun r =>
      if r.id = event_id then { r with status := .processing, updated_at := now } else r) }

/-- `Database.mark_event_completed`: log a success entry (when the row exists)
and delete the row. -/
def markEventCompleted (event_id : Nat) (synced_value : Option String) (now : Int)
    (db : DBState) : DBState :=
  let logged :=
    match db.pending_events.find? (fun r => decide (r.id = event_id)) with
    | some r => db.sync_log ++
        [{ event_type := r.event_type.value
           source_server := r.source_server
           target_server := r.target_server
           username := r.username
           item_id := some r.item_id
           item_name := some r.item_name
           synced_value := synced_value
           success := true
           message := "Synced successfully"
           created_at := now }]
    | none => db.sync_log
  { db with
    sync_log := logged
    pending_events := db.pending_events.filter (fun r => !(decide (r.id = event_id))) }

/-- `Database.mark_event_failed`: increment `retry_count`; when the new count
reaches `max_retries` log a failure and delete the row, otherwise transition
back to status `pending` with exponential backoff `min(300, 10 * 2 ** retry_count)`. -/
def markEventFailed (event_id : Nat) (error : String) (now : Int) (db : DBState) : DBState :=
  match db.pending_events.find? (fun r => decide (r.id = event_id)) with
  | none => db
  | some r =>
    let retry_count := r.retry_count + 1
    if r.max_retries ≤ retry_count then
      { db with
        sync_log := db.sync_log ++
          [{ event_type := r.event_type.value
             source_server := r.source_server
             target_server := r.target_server
             username := r.username
             item_id := some r.item_id
             item_name := some r.item_name
             synced_value := none
             success := false
             message := "Failed after " ++ toString retry_count ++ " retries: " ++ error
             created_at := now }]
        pending_events := db.pending_events.filter (fun x => !(decide (x.id = event_id))) }
    else
      let backoff : Nat := min 300 (10 * 2 ^ retry_count)
      { db with pending_events := db.pending_events.map (fun x =>
          if x.id = event_id then
            { x with
              status := .pending
              retry_count := retry_count
              last_error := some error
              next_retry_at := some (now + (backoff : Int))
              updated_at := now }
          else x) }

/-- `Database.reset_stale_processing`: demote `processing` rows whose
`updated_at` is older than the stale threshold back to `pending`. -/
def resetStaleProcessing (stale_minutes : Int) (now : Int) (db : DBState) : DBState :=
  let stale_time := now - stale_minutes * 60
  { db with pending_events := db.pending_events.map (fun r =>
      if r.status = .processing ∧ r.updated_at < stale_time then
        { r with status := .pending, updated_at := now }
      else r) }

/-- `Database.reset_all_processing`. -/
def resetAllProcessing (now : Int) (db : DBState) : DBState :=
  { db with pending_events := db.pending_events.map (fun r =>
      if r.status = .processing then { r with status := .pending, updated_at := now } else r) }

/-- `Database.mark_event_waiting_for_item`. -/
def markEventWaitingForItem (event_id : Nat) (max_retries : Int) (retry_delay_seconds : Int)
    (error_message : String) (now : Int) (db : DBState) : DBState :=
  { db with pending_events := db.pending_events.map (fun r =>
      if r.id = event_id then
        { r with
          status := .waiting_for_item
          item_not_found_count := r.item_not_found_count + 1
          item_not_found_max := max_retries
          last_error := some error_message
          next_retry_at := some (now + retry_delay_seconds)
          updated_at := now }
      else r) }

/-- Insertion step for `ORDER BY updated_at DESC`. -/
def insertByUpdatedDesc (r : PendingRow) : List PendingRow → List PendingRow
  | [] => [r]
  | x :: xs =>
    if x.updated_at ≤ r.updated_at then r :: x :: xs else x :: insertByUpdatedDesc r xs

/-- Insertion sort realising `ORDER BY updated_at DESC`. -/
def sortByUpdatedDesc (l : List PendingRow) : List PendingRow :=
  l.foldr insertByUpdatedDesc []

/-- `Database.get_failed_events`: `WHERE status = failed ORDER BY updated_at
DESC LIMIT ?`. -/
def getFailedEvents (limit : Nat) (db : DBState) : List PendingRow :=
  (sortByUpdatedDesc (db.pending_events.filter (fun r => decide (r.status = .failed)))).take limit

/-- `Database.reset_event_for_retry`: `UPDATE ... WHERE id = ? AND status =
failed`; returns whether any row was updated. -/
def resetEventForRetry (event_id : Nat) (now : Int) (db : DBState) : Bool × DBState :=
  (db.pending_events.any (fun r => decide (r.id = event_id ∧ r.status = .failed)),
   { db with pending_events := db.pending_events.map (fun r =>
       if r.id = event_id ∧ r.status = .failed then
         { r with status := .pending, retry_count := 0, next_retry_at := none, updated_at := now }
       else r) })

/-! ## sync/engine.py -/

/-- `SYNC_COOLDOWN_SECONDS` from `sync/engine.py`. -/
def SYNC_COOLDOWN_SECONDS : Int := 30

/-- The in-memory state of the engine: the cooldown dictionary and the progress
debounce dictionary, each modelled as a front-insertion association list
(dictionary assignment replaces the key). -/
structure EngineState where
  sync_cooldowns : List (String × Int) := []
  last_progress_sync : List (String × Int) := []
deriving DecidableEq, Repr

/-- Dictionary assignment `d[k] = v`. -/
def dictSet (k : String) (v : Int) (m : List (String × Int)) : List (String × Int) :=
  (k, v) :: m.filter (fun kv => !(decide (kv.1 = k)))

/-- Dictionary deletion `del d[k]`. -/
def dictDel (k : String) (m : List (String × Int)) : List (String × Int) :=
  m.filter (fun kv => !(decide (kv.1 = k)))

/-- `SyncEngine._get_item_identity_key`. -/
def getItemIdentityKey (item_path provider_imdb provider_tmdb provider_tvdb : Option String) :
    String :=
  if optStrTruthy item_path then "path:" ++ item_path.getD ""
  else if optStrTruthy provider_imdb then "imdb:" ++ provider_imdb.getD ""
  else if optStrTruthy provider_tmdb then "tmdb:" ++ provider_tmdb.getD ""
  else if optStrTruthy provider_tvdb then "tvdb:" ++ provider_tvdb.getD ""
  else ""

/-- The cooldown-dictionary key `f"{server}:{username}:{item_key}:{event_type.value}"`. -/
def cooldownDictKey (server username item_key : String) (event_type : SyncEventType) : String :=
  server ++ ":" ++ username ++ ":" ++ item_key ++ ":" ++ event_type.value

/-- `SyncEngine._is_in_cooldown`; also returns the (possibly lazily cleaned)
cooldown dictionary, since an expired entry is deleted on lookup. -/
def isInCooldown (server username : String) (item_path : Option String)
    (event_type : SyncEventType)
    (provider_imdb provider_tmdb provider_tvdb : Option String)
    (now : Int) (cooldowns : List (String × Int)) : Bool × List (String × Int) :=
  let item_key := getItemIdentityKey item_path provider_imdb provider_tmdb provider_tvdb
  if item_key = "" then (false, cooldowns)
  else
    let key := cooldownDictKey server username item_key event_type
    match List.lookup key cooldowns with
    | none => (false, cooldowns)
    | some expiry =>
      if expiry ≤ now then (false, dictDel key cooldowns) else (true, cooldowns)

/-- `SyncEngine._set_cooldown`. -/
def setCooldown (server username : String) (item_path : Option String)
    (event_type : SyncEventType)
    (provider_imdb provider_tmdb provider_tvdb : Option String)
    (now : Int) (cooldowns : List (String × Int)) : List (String × Int) :=
  let item_key := getItemIdentityKey item_path provider_imdb provider_tmdb provider_tvdb
  if item_key = "" then cooldowns
  else dictSet (cooldownDictKey server username item_key event_type)
    (now + SYNC_COOLDOWN_SECONDS) cooldowns

/-- `SyncEngine._cleanup_expired_cooldowns`: drop every entry with
`now >= expiry`. -/
def cleanupExpiredCooldowns (now : Int) (cooldowns : List (String × Int)) :
    List (String × Int) :=
  cooldowns.filter (fun kv => decide (now < kv.2))

/-- `SyncEngine._should_sync_progress`. -/
def shouldSyncProgress (cfg : Config) (key : String) (now : Int)
    (last_progress : List (String × Int)) : Bool :=
  match List.lookup key last_progress with
  | none => true
  | some last => decide (cfg.sync.progress_debounce_seconds ≤ now - last)

/-- `SyncEngine._update_progress_timestamp`. -/
def updateProgressTimestamp (key : String) (now : Int)
    (last_progress : List (String × Int)) : List (String × Int) :=
  dictSet key now last_progress

/-- The debounce key `f"{source_server}:{payload.username}:{payload.item_id}"`. -/
def progressDebounceKey (source_server : String) (payload : WebhookPayload) : String :=
  source_server ++ ":" ++ payload.username ++ ":" ++ payload.item_id

/-- `SyncEngine._parse_webhook_to_event_data`; returns the event records and
the updated progress-debounce dictionary. -/
def parseWebhookToEventData (cfg : Config) (payload : WebhookPayload)
    (source_server : String) (now : Int) (last_progress : List (String × Int)) :
    List EventRecord × List (String × Int) :=
  if payload.event = "PlaybackStop" ∧ payload.played_to_completion = true then
    ((if cfg.sync.watched_status then [⟨.watched, { is_played := some true }⟩] else []),
     last_progress)
  else if payload.event = "PlaybackProgress" then
    if cfg.sync.playback_progress = true ∧ optIntTruthy payload.playback_position_ticks = true then
      let key := progressDebounceKey source_server payload
      if shouldSyncProgress cfg key now last_progress then
        ([⟨.progress, { position_ticks := payload.playback_position_ticks }⟩],
         updateProgressTimestamp key now last_progress)
      else ([], last_progress)
    else ([], last_progress)
  else if payload.event = "UserDataSaved" then
    if payload.save_reason = some "Import" then ([], last_progress)
    else
      ((if cfg.sync.watched_status ∧ payload.is_played.isSome then
          [⟨.watched, { is_played := payload.is_played }⟩] else []) ++
       (if cfg.sync.favorites ∧ payload.is_favorite.isSome then
          [⟨.favorite, { is_favorite := payload.is_favorite }⟩] else []) ++
       (if cfg.sync.likes ∧ payload.likes.isSome then
          [⟨.likes, { likes := payload.likes }⟩] else []) ++
       (if cfg.sync.play_count ∧ payload.play_count.isSome then
          [⟨.play_count, { play_count := payload.play_count }⟩] else []) ++
       (if cfg.sync.last_played_date ∧ optStrTruthy payload.last_played_date then
          [⟨.last_played, { last_played_date := payload.last_played_date }⟩] else []) ++
       (if cfg.sync.audio_stream ∧ payload.audio_stream_index.isSome then
          [⟨.audio_stream, { audio_stream_index := payload.audio_stream_index }⟩] else []) ++
       (if cfg.sync.subtitle_stream ∧ payload.subtitle_stream_index.isSome then
          [⟨.subtitle_stream, { subtitle_stream_index := payload.subtitle_stream_index }⟩]
        else []),
       last_progress)
  else ([], last_progress)

/-- The cooldown filter inside `enqueue_events` (a list comprehension whose
predicate lazily deletes expired entries, so the dictionary is threaded). -/
def filterCooldownRecords (source_server : String) (payload : WebhookPayload)
    (records : List EventRecord) (now : Int) (cooldowns : List (String × Int)) :
    List EventRecord × List (String × Int) :=
  records.foldl
    (fun acc rec =>
      let res := isInCooldown source_server payload.username payload.item_path rec.event_type
        payload.provider_imdb payload.provider_tmdb payload.provider_tvdb now acc.2
      (if res.1 then acc.1 else acc.1 ++ [rec], res.2))
    ([], cooldowns)

/-- The inner fan-out loop of `enqueue_events`: for one record, visit every
target server, skip when `has_pending_event` reports a duplicate, otherwise
insert a pending row; threads the running count and the database. -/
def enqueueTargets (rec : EventRecord) (payload : WebhookPayload) (source_server : String)
    (targets : List ServerConfig) (now : Int) (acc : Nat × DBState) : Nat × DBState :=
  targets.foldl
    (fun acc2 target =>
      if hasPendingEvent rec.event_type target.name payload.username payload.item_id acc2.2 then
        acc2
      else
        (acc2.1 + 1,
         addPendingEvent rec.event_type source_server target.name payload.username
           payload.user_id payload.item_id payload.item_name rec.data payload.item_path
           payload.provider_imdb payload.provider_tmdb payload.provider_tvdb now acc2.2))
    acc

/-- Result of `SyncEngine.enqueue_events`. -/
structure EnqueueResult where
  enqueued : Nat
  engine : EngineState
  db : DBState
deriving Repr

/-- `SyncEngine.enqueue_events`: cooldown sweep, user-mapping upsert, parse,
cooldown filter, then the dedup-guarded fan-out over the other servers. -/
def enqueueEvents (cfg : Config) (e : EngineState) (db : DBState) (payload : WebhookPayload)
    (source_server_name : String) (now : Int) : EnqueueResult :=
  let cooldowns := cleanupExpiredCooldowns now e.sync_cooldowns
  let db1 := upsertUserMapping payload.username source_server_name payload.user_id now db
  let parsed := parseWebhookToEventData cfg payload source_server_name now e.last_progress_sync
  let filtered := filterCooldownRecords source_server_name payload parsed.1 now cooldowns
  if filtered.1.isEmpty then ⟨0, ⟨filtered.2, parsed.2⟩, db1⟩
  else
    let targets := cfg.getOtherServers source_server_name
    let looped := filtered.1.foldl
      (fun acc rec => enqueueTargets rec payload source_server_name targets now acc) (0, db1)
    ⟨looped.1, ⟨filtered.2, parsed.2⟩, looped.2⟩

/-! ### Worker side: smart sync, item-not-found, cooldown hook -/

/-- The current user-data dictionary of the target user as returned by
`client.get_user_data`; `none` models both an absent and an empty (falsy)
dictionary, and each field models `dict.get` of the corresponding key. -/
structure UserData where
  Played : Option Bool := none
  IsFavorite : Option Bool := none
  Likes : Option Bool := none
  PlayCount : Option Int := none
  LastPlayedDate : Option String := none
  AudioStreamIndex : Option Int := none
  SubtitleStreamIndex : Option Int := none
  Rating : Option Int := none
deriving DecidableEq, Repr

/-- The peer-API mutation chosen by `_execute_sync` (the `func`/`args`/`kwargs`
triple). -/
inductive MutationCall where
  | updatePlaybackProgress (user_id item_id : String) (position_ticks : Int)
  | markPlayed (user_id item_id : String)
  | markUnplayed (user_id item_id : String)
  | addFavorite (user_id item_id : String)
  | removeFavorite (user_id item_id : String)
  | updateRating (user_id item_id : String) (rating : Int)
  | updateUserDataLikes (user_id item_id : String) (likes : Option Bool)
  | updateUserDataPlayCount (user_id item_id : String) (play_count : Option Int)
  | updateUserDataLastPlayed (user_id item_id : String) (last_played_date : Option String)
  | updateUserDataAudioIndex (user_id item_id : String) (audio_stream_index : Option Int)
  | updateUserDataSubtitleIndex (user_id item_id : String) (subtitle_stream_index : Option Int)
deriving DecidableEq, Repr

/-- Result of `_execute_sync`: the returned `(success, synced_value)` pair plus
the mutation call that was issued (none when the smart-sync check, a missing
field, or dry-run short-circuited before the API call). -/
structure ExecOutcome where
  success : Bool
  synced_value : Option String
  call : Option MutationCall
deriving DecidableEq, Repr

/-- Python `==` where one side is a plain bool and the other an optional bool
(`bool == None` is `False`). -/
def pyEqBoolOpt (c : Bool) (d : Option Bool) : Bool :=
  match d with
  | none => false
  | some b => c == b

/-- Python `==` between two optional values (`None == None` is `True`). -/
def pyEqOpt {α : Type} [DecidableEq α] (c d : Option α) : Bool :=
  match c, d with
  | none, none => true
  | some a, some b => decide (a = b)
  | _, _ => false

/-- Two-digit zero padding used by `_format_ticks`. -/
def pad2 (n : Int) : String :=
  if 0 ≤ n ∧ n < 10 then "0" ++ toString n else toString n

/-- `SyncEngine._format_ticks` (Python `//` and `divmod` floor-divide). -/
def formatTicks (ticks : Int) : String :=
  let seconds := Int.fdiv ticks 10000000
  let hours := Int.fdiv seconds 3600
  let remainder := Int.fmod seconds 3600
  let minutes := Int.fdiv remainder 60
  let secs := Int.fmod remainder 60
  if 0 < hours then toString hours ++ ":" ++ pad2 minutes ++ ":" ++ pad2 secs
  else toString minutes ++ ":" ++ pad2 secs

/-- The event types in the `needs_smart_check` tuple of `_execute_sync`. -/
def needsSmartCheck : SyncEventType → Bool
  | .watched => true
  | .favorite => true
  | .likes => true
  | .play_count => true
  | .last_played => true
  | .audio_stream => true
  | .subtitle_stream => true
  | .progress => true
  | .rating => true
  | .playlist => false

/-- The smart-sync comparison block of `_execute_sync`: when the target state
already matches, returns the early `(True, synced_value)` result. -/
def smartSyncSkip (u : UserData) (event_type : SyncEventType) (event_data : EventData) :
    Option String :=
  match event_type with
  | .watched =>
    if pyEqBoolOpt (u.Played.getD false) event_data.is_played then
      some ("played=" ++ pyOptBoolStr event_data.is_played ++ " (already set)")
    else none
  | .favorite =>
    if pyEqBoolOpt (u.IsFavorite.getD false) event_data.is_favorite then
      some ("favorite=" ++ pyOptBoolStr event_data.is_favorite ++ " (already set)")
    else none
  | .likes =>
    if pyEqOpt u.Likes event_data.likes then
      some ("likes=" ++ pyOptBoolStr event_data.likes ++ " (already set)")
    else none
  | .play_count =>
    if event_data.play_count.getD 0 ≤ u.PlayCount.getD 0 then
      some ("play_count=" ++ toString (u.PlayCount.getD 0) ++ " (target >= source)")
    else none
  | .last_played =>
    if optStrTruthy u.LastPlayedDate ∧ optStrTruthy event_data.last_played_date ∧
        strGe (u.LastPlayedDate.getD "") (event_data.last_played_date.getD "") = true then
      some ("last_played=" ++ strTake (u.LastPlayedDate.getD "") 10 ++ " (target newer)")
    else none
  | .audio_stream =>
    if pyEqOpt u.AudioStreamIndex event_data.audio_stream_index then
      some ("audio_stream=" ++ pyOptIntStr event_data.audio_stream_index ++ " (already set)")
    else none
  | .subtitle_stream =>
    if pyEqOpt u.SubtitleStreamIndex event_data.subtitle_stream_index then
      some ("subtitle_stream=" ++ pyOptIntStr event_data.subtitle_stream_index ++
        " (already set)")
    else none
  | .progress => none
  | .rating =>
    if pyEqOpt u.Rating event_data.rating then
      some ("rating=" ++ pyOptIntStr event_data.rating ++ " (already set)")
    else none
  | .playlist => none

/-- The `func`/`synced_value` selection block of `_execute_sync`. -/
def chooseMutation (user_id item_id : String) (event_type : SyncEventType)
    (event_data : EventData) : Option (MutationCall × String) :=
  match event_type with
  | .progress =>
    match event_data.position_ticks with
    | some t => some (.updatePlaybackProgress user_id item_id t, "position=" ++ formatTicks t)
    | none => none
  | .watched =>
    match event_data.is_played with
    | some b =>
      some (if b then .markPlayed user_id item_id else .markUnplayed user_id item_id,
        "played=" ++ pyBoolStr b)
    | none => none
  | .favorite =>
    match event_data.is_favorite with
    | some b =>
      some (if b then .addFavorite user_id item_id else .removeFavorite user_id item_id,
        "favorite=" ++ pyBoolStr b)
    | none => none
  | .rating =>
    match event_data.rating with
    | some v => some (.updateRating user_id item_id v, "rating=" ++ toString v)
    | none => none
  | .likes =>
    some (.updateUserDataLikes user_id item_id event_data.likes,
      "likes=" ++ pyOptBoolStr event_data.likes)
  | .play_count =>
    some (.updateUserDataPlayCount user_id item_id event_data.play_count,
      "play_count=" ++ pyOptIntStr event_data.play_count)
  | .last_played =>
    some (.updateUserDataLastPlayed user_id item_id event_data.last_played_date,
      "last_played=" ++
        (if optStrTruthy event_data.last_played_date then
          strTake (event_data.last_played_date.getD "") 10
        else "None"))
  | .audio_stream =>
    some (.updateUserDataAudioIndex user_id item_id event_data.audio_stream_index,
      "audio_stream=" ++ pyOptIntStr event_data.audio_stream_index)
  | .subtitle_stream =>
    some (.updateUserDataSubtitleIndex user_id item_id event_data.subtitle_stream_index,
      "subtitle_stream=" ++ pyOptIntStr event_data.subtitle_stream_index)
  | .playlist => none

/-- `SyncEngine._execute_sync`.  `current_user_data` is what
`client.get_user_data` returned (only consulted when the event type is in the
smart-check tuple); `api_result` is what the chosen peer-API call returns. -/
def executeSync (cfg : Config) (current_user_data : Option UserData)
    (user_id item_id : String) (event_type : SyncEventType) (event_data : EventData)
    (api_result : Bool) : ExecOutcome :=
  let cud := if needsSmartCheck event_type then current_user_data else none
  match cud with
  | some u =>
    match smartSyncSkip u event_type event_data with
    | some sv => { success := true, synced_value := some sv, call := none }
    | none =>
      match chooseMutation user_id item_id event_type event_data with
      | none => { success := false, synced_value := none, call := none }
      | some (c, sv) =>
        if cfg.sync.dry_run then { success := true, synced_value := some sv, call := none }
        else { success := api_result, synced_value := if api_result then some sv else none,
               call := some c }
  | none =>
    match chooseMutation user_id item_id event_type event_data with
    | none => { success := false, synced_value := none, call := none }
    | some (c, sv) =>
      if cfg.sync.dry_run then { success := true, synced_value := some sv, call := none }
      else { success := api_result, synced_value := if api_result then some sv else none,
             call := some c }

/-- Result of `_sync_event` / `_handle_item_not_found` (the `SyncResult` model,
non-time fields). -/
structure SyncResultM where
  success : Bool
  target_server : String
  event_type : SyncEventType
  message : String
deriving DecidableEq, Repr

/-- `SyncEngine._handle_item_not_found`: consult the path policy, fail
permanently when there is no policy / no retries / retries exhausted, else
mark the row `waiting_for_item` and report a success-like "waiting" result. -/
def handleItemNotFound (cfg : Config) (event : PendingRow) (target_server_name : String)
    (now : Int) (db : DBState) : SyncResultM × DBState :=
  let policy := cfg.getPathPolicy event.item_path
  let error_msg := "Item " ++ sq ++ event.item_name ++ sq ++ " not found on " ++
    target_server_name
  match policy with
  | none => (⟨false, target_server_name, event.event_type, error_msg⟩, db)
  | some policy =>
    if policy.absent_retry_count = 0 then
      (⟨false, target_server_name, event.event_type, error_msg⟩, db)
    else
      let current_count := event.item_not_found_count + 1
      let max_retries := policy.absent_retry_count
      if max_retries ≠ -1 ∧ max_retries ≤ (current_count : Int) then
        (⟨false, target_server_name, event.event_type,
          error_msg ++ " (gave up after " ++ toString current_count ++ " attempts)"⟩, db)
      else
        let max_display := if max_retries = -1 then "∞" else toString max_retries
        (⟨true, target_server_name, event.event_type,
          "Waiting for item import (attempt " ++ toString current_count ++ ")"⟩,
         markEventWaitingForItem event.id max_retries policy.retry_delay_seconds
           (error_msg ++ " (attempt " ++ toString current_count ++ "/" ++ max_display ++ ")")
           now db)

/-- The success hook of `_sync_event` (engine.py lines 620-632): after a
successful write to the target server, set the cooldown keyed by the target
server, the username, the item identity and the event type. -/
def onSyncSuccess (target_server_name username : String) (item_path : Option String)
    (event_type : SyncEventType)
    (provider_imdb provider_tmdb provider_tvdb : Option String)
    (now : Int) (cooldowns : List (String × Int)) : List (String × Int) :=
  setCooldown target_server_name username item_path event_type provider_imdb provider_tmdb
    provider_tvdb now cooldowns

/-! ## General helper lemmas -/

lemma foldlPreserves {σ α : Type} {P : σ → Prop} {f : σ → α → σ}
    (hf : ∀ s a, P s → P (f s a)) : ∀ (l : List α) (s : σ), P s → P (l.foldl f s) := by
  intro l
  induction l with
  | nil => intro s hs; exact hs
  | cons a t ih => intro s hs; exact ih (f s a) (hf s a hs)

lemma countP_eq_zero_of_any_false {α : Type} (p : α → Bool) (l : List α)
    (h : l.any p = false) : l.countP p = 0 := by
  rw [List.countP_eq_zero]
  intro a ha
  rw [List.any_eq_false] at h
  exact h a ha

lemma find?_append_left_none {α : Type} (p : α → Bool) (l1 l2 : List α)
    (h : l1.find? p = none) : (l1 ++ l2).find? p = l2.find? p := by
  induction l1 with
  | nil => rfl
  | cons a t ih =>
    rw [List.find?_eq_none] at h
    have ha : p a = false := by
      have := h a (by simp)
      simpa using this
    have ht : t.find? p = none := by
      rw [List.find?_eq_none]
      intro x hx
      exact h x (by simp [hx])
    simp only [List.cons_append, List.find?, ha]
    exact ih ht

lemma lookup_eq_none_of_all_ne (k : String) (l : List (String × Int))
    (h : ∀ kv ∈ l, ¬kv.1 = k) : List.lookup k l = none := by
  induction l with
  | nil => rfl
  | cons a t ih =>
    have ha : ¬a.1 = k := h a (by simp)
    have hk : (k == a.1) = false := by
      simp only [beq_eq_false_iff_ne, ne_eq]
      intro he
      exact ha he.symm
    simp only [List.lookup, hk]
    exact ih (fun kv hkv => h kv (by simp [hkv]))

lemma strEndsWith_append (a b : String) : strEndsWith (a ++ b) b = true := by
  show b.data.isSuffixOf (a ++ b).data = true
  rw [String.data_append, List.isSuffixOf_iff_suffix]
  exact List.suffix_append a.data b.data

lemma strEndsWith_append_of (a b c : String) (h : strEndsWith b c = true) :
    strEndsWith (a ++ b) c = true := by
  show c.data.isSuffixOf (a ++ b).data = true
  rw [String.data_append, List.isSuffixOf_iff_suffix]
  unfold strEndsWith at h
  rw [List.isSuffixOf_iff_suffix] at h
  exact h.trans (List.suffix_append a.data b.data)

lemma str_append_ne_empty (a b : String) (ha : ¬a = "") : ¬(a ++ b) = "" := by
  intro h
  apply ha
  apply String.ext
  have hd : (a ++ b).data = ("" : String).data := by rw [h]
  rw [String.data_append] at hd
  have h1 : a.data = [] := (List.append_eq_nil.mp hd).1
  rw [show ("" : String).data = [] from rfl]
  exact h1

/-! ## C5: item identity key -/

/-- C5.  `_get_item_identity_key` prefers `path:`, then `imdb:`, `tmdb:`,
`tvdb:`, and is empty exactly when no identifier is supplied (Python
truthiness: `None` and `""` count as absent); an empty key disables both
`_set_cooldown` and `_is_in_cooldown`. -/
theorem claim_C5_identity_key (item_path imdb tmdb tvdb : Option String) :
    (optStrTruthy item_path = true →
      getItemIdentityKey item_path imdb tmdb tvdb = "path:" ++ item_path.getD "") ∧
    (optStrTruthy item_path = false → optStrTruthy imdb = true →
      getItemIdentityKey item_path imdb tmdb tvdb = "imdb:" ++ imdb.getD "") ∧
    (optStrTruthy item_path = false → optStrTruthy imdb = false → optStrTruthy tmdb = true →
      getItemIdentityKey item_path imdb tmdb tvdb = "tmdb:" ++ tmdb.getD "") ∧
    (optStrTruthy item_path = false → optStrTruthy imdb = false → optStrTruthy tmdb = false →
      optStrTruthy tvdb = true →
      getItemIdentityKey item_path imdb tmdb tvdb = "tvdb:" ++ tvdb.getD "") ∧
    (getItemIdentityKey item_path imdb tmdb tvdb = "" ↔
      optStrTruthy item_path = false ∧ optStrTruthy imdb = false ∧
        optStrTruthy tmdb = false ∧ optStrTruthy tvdb = false) ∧
    (getItemIdentityKey item_path imdb tmdb tvdb = "" →
      ∀ (server username : String) (et : SyncEventType) (now : Int) (cds : List (String × Int)),
        setCooldown server username item_path et imdb tmdb tvdb now cds = cds ∧
        isInCooldown server username item_path et imdb tmdb tvdb now cds = (false, cds)) := by
  refine ⟨?_, ?_, ?_, ?_, ?_, ?_⟩
  · intro h; simp [getItemIdentityKey, h]
  · intro h1 h2; simp [getItemIdentityKey, h1, h2]
  · intro h1 h2 h3; simp [getItemIdentityKey, h1, h2, h3]
  · intro h1 h2 h3 h4; simp [getItemIdentityKey, h1, h2, h3, h4]
  · constructor
    · intro h
      by_cases h1 : optStrTruthy item_path = true
      · exact absurd (by simpa [getItemIdentityKey, h1] using h)
          (str_append_ne_empty "path:" (item_path.getD "") (by decide))
      · by_cases h2 : optStrTruthy imdb = true
        · exact absurd (by simp_all [getItemIdentityKey])
            (str_append_ne_empty "imdb:" (imdb.getD "") (by decide))
        · by_cases h3 : optStrTruthy tmdb = true
          · exact absurd (by simp_all [getItemIdentityKey])
              (str_append_ne_empty "tmdb:" (tmdb.getD "") (by decide))
          · by_cases h4 : optStrTruthy tvdb = true
            · exact absurd (by simp_all [getItemIdentityKey])
                (str_append_ne_empty "tvdb:" (tvdb.getD "") (by decide))
            · simp_all
    · rintro ⟨h1, h2, h3, h4⟩
      simp [getItemIdentityKey, h1, h2, h3, h4]
  · intro h server username et now cds
    constructor
    · simp [setCooldown, h]
    · simp [isInCooldown, h]

theorem claim_C5_identity_key_witness :
    getItemIdentityKey (some "/movies/a.mkv") (some "tt1") none none =
      "path:" ++ (some "/movies/a.mkv").getD "" :=
  (claim_C5_identity_key (some "/movies/a.mkv") (some "tt1") none none).1 (by decide)

/-! ## C9: user-mapping lookup is exact (case-sensitive) -/

/-- C9 counterexample.  A mapping stored for username `"Alice"` is not found
by a lookup with `"alice"`: the claimed case-insensitive lookup fails. -/
theorem claim_C9_counterexample :
    (upsertUserMapping "Alice" "srv1" "uid-1" 0 emptyDB).user_mappings =
      [⟨"Alice", "srv1", "uid-1", 0, 0⟩] ∧
    getUserMapping "alice" "srv1" (upsertUserMapping "Alice" "srv1" "uid-1" 0 emptyDB) =
      none := by
  constructor
  · decide
  · decide

lemma upsert_find_aux (u s uid : String) (now : Int) (l : List UserMappingRow) :
    ∃ m, (if l.any (userMappingPred u s) = true then
            l.map (fun r => if userMappingPred u s r then
              { r with jellyfin_user_id := uid, updated_at := now }
            else r)
          else l ++ [⟨u, s, uid, now, now⟩]).find? (userMappingPred u s) = some m ∧
      m.username = u ∧ m.server_name = s ∧ m.jellyfin_user_id = uid := by
  induction l with
  | nil =>
    refine ⟨⟨u, s, uid, now, now⟩, ?_, rfl, rfl, rfl⟩
    simp [userMappingPred, List.find?]
  | cons h t ih =>
    by_cases hp : userMappingPred u s h = true
    · have hany : (h :: t).any (userMappingPred u s) = true := by simp [List.any_cons, hp]
      rw [if_pos hany]
      have huv : h.username = u ∧ h.server_name = s := by
        simpa [userMappingPred] using hp
      refine ⟨{ h with jellyfin_user_id := uid, updated_at := now }, ?_, huv.1, huv.2, rfl⟩
      have hp2 : userMappingPred u s { h with jellyfin_user_id := uid, updated_at := now } =
          true := by
        simpa [userMappingPred] using huv
      rw [List.map_cons, if_pos hp, List.find?_cons_of_pos _ hp2]
    · have hpf : userMappingPred u s h = false := by simpa using hp
      by_cases ht : t.any (userMappingPred u s) = true
      · have hany : (h :: t).any (userMappingPred u s) = true := by
          simp [List.any_cons, ht]
        rw [if_pos hany]
        obtain ⟨m, hm, h1, h2, h3⟩ := ih
        rw [if_pos ht] at hm
        refine ⟨m, ?_, h1, h2, h3⟩
        rw [List.map_cons, if_neg (by simp [hpf]), List.find?_cons_of_neg _ (by simp [hpf])]
        exact hm
      · have htf : t.any (userMappingPred u s) = false := by simpa using ht
        have hany : (h :: t).any (userMappingPred u s) = false := by
          simp [List.any_cons, hpf, htf]
        rw [if_neg (by simp [hany])]
        obtain ⟨m, hm, h1, h2, h3⟩ := ih
        rw [if_neg (by simp [htf])] at hm
        refine ⟨m, ?_, h1, h2, h3⟩
        rw [List.cons_append, List.find?_cons_of_neg _ (by simp [hpf])]
        exact hm

/-- C9 amended.  `get_user_mapping` performs an exact (byte-for-byte, hence
case-sensitive) match on `username`: a returned mapping always carries exactly
the looked-up username and server, and after `upsert_user_mapping(u, s, id)` a
lookup with exactly `(u, s)` finds a row holding `id`.  A lookup whose
username differs only in letter case does not find the stored mapping. -/
theorem claim_C9_amended (u u2 s uid : String) (now : Int) (db : DBState) :
    (∀ m, getUserMapping u2 s db = some m → m.username = u2 ∧ m.server_name = s) ∧
    (∃ m, getUserMapping u s (upsertUserMapping u s uid now db) = some m ∧
      m.username = u ∧ m.server_name = s ∧ m.jellyfin_user_id = uid) := by
  constructor
  · intro m hm
    have := List.find?_some hm
    simpa [userMappingPred] using this
  · obtain ⟨m, hm, h1, h2, h3⟩ := upsert_find_aux u s uid now db.user_mappings
    exact ⟨m, hm, h1, h2, h3⟩

theorem claim_C9_amended_witness :
    ∃ m, getUserMapping "Alice" "srv1" (upsertUserMapping "Alice" "srv1" "uid-1" 0 emptyDB) =
      some m ∧ m.username = "Alice" ∧ m.server_name = "srv1" ∧ m.jellyfin_user_id = "uid-1" :=
  (claim_C9_amended "Alice" "x" "srv1" "uid-1" 0 emptyDB).2

/-! ## C10: the FAILED status is unreachable -/

/-- One call to a queue operation of `database.py`, with its arguments. -/
inductive QueueOp where
  | add (event_type : SyncEventType)
      (source_server target_server username user_id item_id item_name : String)
      (event_data : EventData) (item_path provider_imdb provider_tmdb provider_tvdb : Option String)
      (now : Int)
  | processing (event_id : Nat) (now : Int)
  | completed (event_id : Nat) (synced_value : Option String) (now : Int)
  | failed (event_id : Nat) (error : String) (now : Int)
  | waiting (event_id : Nat) (max_retries retry_delay_seconds : Int) (error_message : String)
      (now : Int)
  | resetStale (stale_minutes now : Int)
  | resetAll (now : Int)

/-- Interpret one queue operation on the database state. -/
def applyQueueOp (db : DBState) : QueueOp → DBState
  | .add et src tgt u uid iid iname data path imdb tmdb tvdb now =>
    addPendingEvent et src tgt u uid iid iname data path imdb tmdb tvdb now db
  | .processing i now => markEventProcessing i now db
  | .completed i sv now => markEventCompleted i sv now db
  | .failed i err now => markEventFailed i err now db
  | .waiting i mr delay msg now => markEventWaitingForItem i mr delay msg now db
  | .resetStale mins now => resetStaleProcessing mins now db
  | .resetAll now => resetAllProcessing now db

/-- No row of `pending_events` carries the `failed` status. -/
def noFailedRows (db : DBState) : Prop :=
  ∀ r ∈ db.pending_events, ¬r.status = .failed

lemma noFailedRows_applyQueueOp (db : DBState) (op : QueueOp) (h : noFailedRows db) :
    noFailedRows (applyQueueOp db op) := by
  cases op with
  | add et src tgt u uid iid iname data path imdb tmdb tvdb now =>
    intro r hr
    rcases List.mem_append.mp hr with hl | hr2
    · exact h r hl
    · simp only [List.mem_singleton] at hr2
      subst hr2
      simp
  | processing i now =>
    intro r hr
    obtain ⟨x, hx, rfl⟩ := List.mem_map.mp hr
    by_cases hi : x.id = i
    · simp only [markEventProcessing] at *
      rw [if_pos hi]
      simp
    · rw [if_neg hi]
      exact h x hx
  | completed i sv now =>
    intro r hr
    exact h r (List.mem_filter.mp hr).1
  | failed i err now =>
    intro r hr
    simp only [applyQueueOp, markEventFailed] at hr
    split at hr
    · exact h r hr
    · split at hr
      · exact h r (List.mem_filter.mp hr).1
      · obtain ⟨x, hx, rfl⟩ := List.mem_map.mp hr
        by_cases hi : x.id = i
        · rw [if_pos hi]
          simp
        · rw [if_neg hi]
          exact h x hx
  | waiting i mr delay msg now =>
    intro r hr
    obtain ⟨x, hx, rfl⟩ := List.mem_map.mp hr
    by_cases hi : x.id = i
    · rw [if_pos hi]
      simp
    · rw [if_neg hi]
      exact h x hx
  | resetStale mins now =>
    intro r hr
    obtain ⟨x, hx, rfl⟩ := List.mem_map.mp hr
    by_cases hi : x.status = .processing ∧ x.updated_at < now - mins * 60
    · rw [if_pos hi]
      simp
    · rw [if_neg hi]
      exact h x hx
  | resetAll now =>
    intro r hr
    obtain ⟨x, hx, rfl⟩ := List.mem_map.mp hr
    by_cases hi : x.status = .processing
    · rw [if_pos hi]
      simp
    · rw [if_neg hi]
      exact h x hx

/-- C10.  Starting from the empty queue, no sequence of queue operations
(`add_pending_event`, `mark_event_processing`, `mark_event_completed`,
`mark_event_failed`, `mark_event_waiting_for_item`, `reset_stale_processing`,
`reset_all_processing`) ever produces a row with status `failed`
(retry-exhausted rows are deleted instead); consequently `get_failed_events`
returns the empty list and `reset_event_for_retry` returns `False`. -/
theorem claim_C10_failed_unreachable (ops : List QueueOp) :
    noFailedRows (ops.foldl applyQueueOp emptyDB) ∧
    (∀ limit, getFailedEvents limit (ops.foldl applyQueueOp emptyDB) = []) ∧
    (∀ event_id now, (resetEventForRetry event_id now (ops.foldl applyQueueOp emptyDB)).1 =
      false) := by
  have hinv : noFailedRows (ops.foldl applyQueueOp emptyDB) := by
    refine foldlPreserves (fun db op hdb => noFailedRows_applyQueueOp db op hdb) ops emptyDB ?_
    intro r hr
    simp [emptyDB] at hr
  refine ⟨hinv, ?_, ?_⟩
  · intro limit
    have hfil : (ops.foldl applyQueueOp emptyDB).pending_events.filter
        (fun r => decide (r.status = .failed)) = [] := by
      rw [List.filter_eq_nil_iff]
      intro r hr
      simpa using hinv r hr
    simp [getFailedEvents, hfil, sortByUpdatedDesc]
  · intro event_id now
    simp only [resetEventForRetry]
    rw [List.any_eq_false]
    intro r hr
    simp only [decide_eq_true_eq, not_and]
    intro _
    exact hinv r hr

/-! ## C3: retry backoff and exhaustion -/

lemma find?_map_update (l : List PendingRow) (i : Nat) (f : PendingRow → PendingRow)
    (hf : ∀ x, (f x).id = x.id) (r : PendingRow)
    (h : l.find? (fun x => decide (x.id = i)) = some r) :
    (l.map (fun x => if x.id = i then f x else x)).find? (fun x => decide (x.id = i)) =
      some (f r) := by
  induction l with
  | nil => simp at h
  | cons a t ih =>
    by_cases ha : a.id = i
    · rw [List.find?_cons_of_pos _ (by simp [ha])] at h
      injection h with h
      subst h
      rw [List.map_cons, if_pos ha, List.find?_cons_of_pos _ (by simp [hf, ha])]
    · rw [List.find?_cons_of_neg _ (by simp [ha])] at h
      rw [List.map_cons, if_neg ha, List.find?_cons_of_neg _ (by simp [ha])]
      exact ih h

/-- C3.  For a row present in `pending_events`, `mark_event_failed(id, error)`
increments `retry_count`; when the incremented count reaches `max_retries` the
row is deleted and a failure entry is appended to `sync_log`; otherwise the
row returns to status `pending` with `last_error = error` and
`next_retry_at = now + min(300, 10 * 2 ** retry_count)` seconds, where
`retry_count` is the incremented value. -/
theorem claim_C3_retry_backoff (db : DBState) (i : Nat) (error : String) (now : Int)
    (r : PendingRow)
    (hfind : db.pending_events.find? (fun x => decide (x.id = i)) = some r) :
    (r.max_retries ≤ r.retry_count + 1 →
      (markEventFailed i error now db).pending_events.find? (fun x => decide (x.id = i)) =
        none ∧
      ∃ e, (markEventFailed i error now db).sync_log = db.sync_log ++ [e] ∧
        e.success = false ∧
        e.message = "Failed after " ++ toString (r.retry_count + 1) ++ " retries: " ++ error) ∧
    (r.retry_count + 1 < r.max_retries →
      (markEventFailed i error now db).sync_log = db.sync_log ∧
      ∃ r2, (markEventFailed i error now db).pending_events.find?
          (fun x => decide (x.id = i)) = some r2 ∧
        r2.retry_count = r.retry_count + 1 ∧
        r2.status = .pending ∧
        r2.last_error = some error ∧
        r2.next_retry_at =
          some (now + ((min 300 (10 * 2 ^ (r.retry_count + 1)) : Nat) : Int))) := by
  constructor
  · intro hex
    simp only [markEventFailed, hfind, if_pos hex]
    constructor
    · rw [List.find?_eq_none]
      intro x hx
      have := (List.mem_filter.mp hx).2
      simpa using this
    · exact ⟨_, rfl, rfl, rfl⟩
  · intro hlt
    have hex : ¬r.max_retries ≤ r.retry_count + 1 := by omega
    simp only [markEventFailed, hfind, if_neg hex]
    refine ⟨by first | rfl | trivial, ?_⟩
    have hm := find?_map_update db.pending_events i
      (fun x =>
        { x with
          status := .pending
          retry_count := r.retry_count + 1
          last_error := some error
          next_retry_at := some (now + ((min 300 (10 * 2 ^ (r.retry_count + 1)) : Nat) : Int))
          updated_at := now })
      (fun x => rfl) r hfind
    exact ⟨_, hm, rfl, rfl, rfl, rfl⟩

/-- A concrete one-row queue state used to witness C3. -/
def rowC3 : PendingRow :=
  { id := 1, event_type := .watched, source_server := "wan", target_server := "lan",
    username := "u", user_id := "uid", item_id := "i", item_name := "n",
    created_at := 50, updated_at := 50 }

/-- A concrete queue state holding `rowC3`. -/
def dbC3 : DBState := { emptyDB with pending_events := [rowC3], next_id := 2 }

theorem claim_C3_retry_backoff_witness :
    (markEventFailed 1 "boom" 60 dbC3).sync_log = dbC3.sync_log ∧
    ∃ r2, (markEventFailed 1 "boom" 60 dbC3).pending_events.find?
        (fun x => decide (x.id = 1)) = some r2 ∧
      r2.retry_count = rowC3.retry_count + 1 ∧
      r2.status = .pending ∧
      r2.last_error = some "boom" ∧
      r2.next_retry_at =
        some (60 + ((min 300 (10 * 2 ^ (rowC3.retry_count + 1)) : Nat) : Int)) :=
  (claim_C3_retry_backoff dbC3 1 "boom" 60 rowC3 (by decide)).2 (by decide)

/-! ## C4: path-policy selection and the not-found branch -/

/-- C4 counterexample.  A configured policy with the empty prefix matches every
path (`"/a".startswith("")` is true), yet `get_path_policy` returns `None`:
the claim "returns the policy whose prefix is a prefix of the path and is
longest among all matching prefixes (and None if no prefix matches)" fails. -/
theorem claim_C4_counterexample :
    strStartsWith "/a" "" = true ∧
    ({ path_sync_policy := [⟨"", -1, 300⟩] } : Config).getPathPolicy (some "/a") = none := by
  constructor
  · decide
  · decide

lemma pathPolicyFoldAux (p : String) :
    ∀ (l : List PathSyncPolicy) (acc : Option PathSyncPolicy × Nat),
    (∀ pol, acc.1 = some pol → strStartsWith p pol.pathPrefix = true ∧
        acc.2 = pol.pathPrefix.data.length ∧ 0 < acc.2) →
    (acc.1 = none → acc.2 = 0) →
    (∀ pol, (l.foldl (pathPolicyStep p) acc).1 = some pol →
        strStartsWith p pol.pathPrefix = true ∧
        (l.foldl (pathPolicyStep p) acc).2 = pol.pathPrefix.data.length ∧
        0 < (l.foldl (pathPolicyStep p) acc).2 ∧ (pol ∈ l ∨ acc.1 = some pol)) ∧
    ((l.foldl (pathPolicyStep p) acc).1 = none → acc.1 = none ∧
        (l.foldl (pathPolicyStep p) acc).2 = 0) ∧
    acc.2 ≤ (l.foldl (pathPolicyStep p) acc).2 ∧
    (∀ q ∈ l, strStartsWith p q.pathPrefix = true →
        q.pathPrefix.data.length ≤ (l.foldl (pathPolicyStep p) acc).2) := by
  intro l
  induction l with
  | nil =>
    intro acc hsome hnone
    refine ⟨?_, ?_, le_refl _, ?_⟩
    · intro pol hpol
      obtain ⟨h1, h2, h3⟩ := hsome pol hpol
      exact ⟨h1, h2, h3, Or.inr hpol⟩
    · intro hn
      exact ⟨hn, hnone hn⟩
    · intro q hq
      simp at hq
  | cons policy t ih =>
    intro acc hsome hnone
    rw [List.foldl_cons]
    by_cases hc : strStartsWith p policy.pathPrefix = true ∧
        acc.2 < policy.pathPrefix.data.length
    · have hstep : pathPolicyStep p acc policy =
          (some policy, policy.pathPrefix.data.length) := by
        rw [pathPolicyStep, if_pos hc]
      rw [hstep]
      have hsome2 : ∀ pol, ((some policy, policy.pathPrefix.data.length) :
          Option PathSyncPolicy × Nat).1 = some pol →
          strStartsWith p pol.pathPrefix = true ∧
          ((some policy, policy.pathPrefix.data.length) :
            Option PathSyncPolicy × Nat).2 = pol.pathPrefix.data.length ∧
          0 < ((some policy, policy.pathPrefix.data.length) :
            Option PathSyncPolicy × Nat).2 := by
        intro pol hpol
        simp only [Option.some.injEq] at hpol
        subst hpol
        exact ⟨hc.1, rfl, Nat.lt_of_le_of_lt (Nat.zero_le _) hc.2⟩
      have hnone2 : ((some policy, policy.pathPrefix.data.length) :
          Option PathSyncPolicy × Nat).1 = none → ((some policy,
          policy.pathPrefix.data.length) : Option PathSyncPolicy × Nat).2 = 0 := by
        intro hn
        simp at hn
      obtain ⟨ih1, ih2, ih3, ih4⟩ := ih (some policy, policy.pathPrefix.data.length)
        hsome2 hnone2
      refine ⟨?_, ?_, ?_, ?_⟩
      · intro pol hpol
        obtain ⟨h1, h2, h3, h4⟩ := ih1 pol hpol
        refine ⟨h1, h2, h3, Or.inl ?_⟩
        rcases h4 with h4 | h4
        · exact List.mem_cons_of_mem _ h4
        · simp only [Option.some.injEq] at h4
          subst h4
          exact List.mem_cons_self _ _
      · intro hn
        obtain ⟨h1, _⟩ := ih2 hn
        simp at h1
      · exact le_trans (le_of_lt hc.2) ih3
      · intro q hq hsq
        rcases List.mem_cons.mp hq with hq | hq
        · subst hq
          exact ih3
        · exact ih4 q hq hsq
    · have hstep : pathPolicyStep p acc policy = acc := by
        rw [pathPolicyStep, if_neg hc]
      rw [hstep]
      obtain ⟨ih1, ih2, ih3, ih4⟩ := ih acc hsome hnone
      refine ⟨?_, ih2, ih3, ?_⟩
      · intro pol hpol
        obtain ⟨h1, h2, h3, h4⟩ := ih1 pol hpol
        refine ⟨h1, h2, h3, ?_⟩
        rcases h4 with h4 | h4
        · exact Or.inl (List.mem_cons_of_mem _ h4)
        · exact Or.inr h4
      · intro q hq hsq
        rcases List.mem_cons.mp hq with hq | hq
        · subst hq
          have : ¬acc.2 < q.pathPrefix.data.length := fun hlt => hc ⟨hsq, hlt⟩
          exact le_trans (Nat.le_of_not_lt this) ih3
        · exact ih4 q hq hsq

/-- C4 amended.  For a non-empty path, `get_path_policy` returns a configured
policy with a **non-empty** prefix of the path of maximal length among all
matching prefixes, and returns `None` exactly when no non-empty configured
prefix matches (an empty-prefix policy is never selected); in the
item-not-found branch, a selected policy with `absent_retry_count == -1`
always yields the success-like "waiting" result and marks the row
`waiting_for_item`, never a permanent failure, for any value of
`item_not_found_count`. -/
theorem claim_C4_amended (cfg : Config) (path : String) (hne : ¬path = "") :
    (∀ pol, cfg.getPathPolicy (some path) = some pol →
        pol ∈ cfg.path_sync_policy ∧ strStartsWith path pol.pathPrefix = true ∧
        0 < pol.pathPrefix.data.length ∧
        ∀ q ∈ cfg.path_sync_policy, strStartsWith path q.pathPrefix = true →
          q.pathPrefix.data.length ≤ pol.pathPrefix.data.length) ∧
    (cfg.getPathPolicy (some path) = none →
        ∀ q ∈ cfg.path_sync_policy, strStartsWith path q.pathPrefix = true →
          q.pathPrefix.data.length = 0) ∧
    (∀ (ev : PendingRow) (tsn : String) (now : Int) (db : DBState) (pol : PathSyncPolicy),
        cfg.getPathPolicy ev.item_path = some pol → pol.absent_retry_count = -1 →
        (handleItemNotFound cfg ev tsn now db).1.success = true ∧
        (handleItemNotFound cfg ev tsn now db).1.message =
          "Waiting for item import (attempt " ++
            toString (ev.item_not_found_count + 1) ++ ")" ∧
        ∀ x ∈ (handleItemNotFound cfg ev tsn now db).2.pending_events,
          x.id = ev.id → x.status = .waiting_for_item) := by
  have haux := pathPolicyFoldAux path cfg.path_sync_policy
    ((none : Option PathSyncPolicy), 0) (by intro pol h; simp at h) (by intro _; rfl)
  obtain ⟨a1, a2, _, a4⟩ := haux
  have hunf : cfg.getPathPolicy (some path) =
      (cfg.path_sync_policy.foldl (pathPolicyStep path)
        ((none : Option PathSyncPolicy), 0)).1 := by
    simp [Config.getPathPolicy, hne]
  refine ⟨?_, ?_, ?_⟩
  · intro pol hpol
    rw [hunf] at hpol
    obtain ⟨h1, h2, h3, h4⟩ := a1 pol hpol
    refine ⟨?_, h1, ?_, ?_⟩
    · rcases h4 with h4 | h4
      · exact h4
      · simp at h4
    · rw [← h2]
      exact h3
    · intro q hq hsq
      rw [← h2]
      exact a4 q hq hsq
  · intro hnone q hq hsq
    rw [hunf] at hnone
    obtain ⟨_, hz⟩ := a2 hnone
    have := a4 q hq hsq
    omega
  · intro ev tsn now db pol hpol harc
    simp only [handleItemNotFound, hpol]
    have h0 : ¬pol.absent_retry_count = 0 := by rw [harc]; decide
    rw [if_neg h0]
    have h1 : ¬(pol.absent_retry_count ≠ -1 ∧
        pol.absent_retry_count ≤ ((ev.item_not_found_count + 1 : Nat) : Int)) := by
      intro h
      exact h.1 harc
    rw [if_neg h1]
    refine ⟨rfl, rfl, ?_⟩
    intro x hx hid
    simp only [markEventWaitingForItem] at hx
    obtain ⟨x0, hx0, rfl⟩ := List.mem_map.mp hx
    by_cases hi : x0.id = ev.id
    · rw [if_pos hi]
    · rw [if_neg hi] at hid ⊢
      exact absurd hid hi

/-- Configuration with the nested movie policies used to witness C4. -/
def cfgC4w : Config :=
  { path_sync_policy := [⟨"/movies", 5, 60⟩, ⟨"/movies/new", -1, 300⟩] }

/-- A pending row whose item sits under the unbounded-retry prefix, already
not found five times. -/
def evC4 : PendingRow :=
  { id := 1, event_type := .watched, source_server := "wan", target_server := "lan",
    username := "u", user_id := "uid", item_id := "i", item_name := "n",
    item_path := some "/movies/new/latest.mkv", item_not_found_count := 5,
    created_at := 0, updated_at := 0 }

theorem claim_C4_amended_witness :
    (handleItemNotFound cfgC4w evC4 "lan" 100
      { emptyDB with pending_events := [evC4] }).1.success = true ∧
    (handleItemNotFound cfgC4w evC4 "lan" 100
      { emptyDB with pending_events := [evC4] }).1.message =
      "Waiting for item import (attempt " ++
        toString (evC4.item_not_found_count + 1) ++ ")" := by
  have h := (claim_C4_amended cfgC4w "/movies/new/latest.mkv" (by decide)).2.2 evC4 "lan"
    100 { emptyDB with pending_events := [evC4] } ⟨"/movies/new", -1, 300⟩ (by decide) rfl
  exact ⟨h.1, h.2.1⟩

/-! ## C6: smart-sync skip -/

/-- C6 counterexample.  When the `LastPlayedDate` on the target is newer, the
smart-sync skip fires with a `synced_value` ending in `"(target newer)"`,
which ends in neither `"(already set)"` nor `"(target >= source)"` as the
claim states. -/
theorem claim_C6_counterexample :
    executeSync {} (some { LastPlayedDate := some "2024-05-01" }) "u" "i" .last_played
      { last_played_date := some "2024-04-01" } true =
      { success := true, synced_value := some "last_played=2024-05-01 (target newer)",
        call := none } ∧
    strEndsWith "last_played=2024-05-01 (target newer)" "(already set)" = false ∧
    strEndsWith "last_played=2024-05-01 (target newer)" "(target >= source)" = false := by
  refine ⟨by decide, by decide, by decide⟩

/-- The claim condition "target already matches the desired state" conditions, written
from the spec sentence (with the source reading of the LAST_PLAYED monotonic
comparison: both values non-empty and target not older). -/
def specSmartSkipCondition (u : UserData) (et : SyncEventType) (data : EventData) : Prop :=
  (et = .watched ∧ pyEqBoolOpt (u.Played.getD false) data.is_played = true) ∨
  (et = .favorite ∧ pyEqBoolOpt (u.IsFavorite.getD false) data.is_favorite = true) ∨
  (et = .likes ∧ pyEqOpt u.Likes data.likes = true) ∨
  (et = .audio_stream ∧ pyEqOpt u.AudioStreamIndex data.audio_stream_index = true) ∨
  (et = .subtitle_stream ∧ pyEqOpt u.SubtitleStreamIndex data.subtitle_stream_index = true) ∨
  (et = .play_count ∧ data.play_count.getD 0 ≤ u.PlayCount.getD 0) ∨
  (et = .last_played ∧ optStrTruthy u.LastPlayedDate = true ∧
    optStrTruthy data.last_played_date = true ∧
    strGe (u.LastPlayedDate.getD "") (data.last_played_date.getD "") = true)

/-- C6 amended.  When the current user data on the target already matches the
desired state, `_execute_sync` issues no mutation call and returns success
with a `synced_value` ending in `"(already set)"`, `"(target >= source)"`
(PLAY_COUNT), or `"(target newer)"` (LAST_PLAYED); a PROGRESS event is never
skipped by the smart-sync comparison: with a position present and dry-run off
it always issues the playback-progress mutation. -/
theorem claim_C6_amended (cfg : Config) (u : UserData) (cud : Option UserData)
    (uid iid : String) (et : SyncEventType) (data : EventData) (api : Bool) (t : Int) :
    (specSmartSkipCondition u et data →
      (executeSync cfg (some u) uid iid et data api).call = none ∧
      (executeSync cfg (some u) uid iid et data api).success = true ∧
      ∃ s, (executeSync cfg (some u) uid iid et data api).synced_value = some s ∧
        (strEndsWith s "(already set)" = true ∨ strEndsWith s "(target >= source)" = true ∨
         strEndsWith s "(target newer)" = true)) ∧
    (data.position_ticks = some t → cfg.sync.dry_run = false →
      (executeSync cfg cud uid iid .progress data api).call =
        some (.updatePlaybackProgress uid iid t)) := by
  constructor
  · intro h
    rcases h with ⟨rfl, hc⟩ | ⟨rfl, hc⟩ | ⟨rfl, hc⟩ | ⟨rfl, hc⟩ | ⟨rfl, hc⟩ | ⟨rfl, hc⟩ |
      ⟨rfl, hc1, hc2, hc3⟩
    · have hskip : smartSyncSkip u .watched data =
          some ("played=" ++ pyOptBoolStr data.is_played ++ " (already set)") := by
        simp [smartSyncSkip, hc]
      refine ⟨by simp [executeSync, needsSmartCheck, hskip],
        by simp [executeSync, needsSmartCheck, hskip],
        "played=" ++ pyOptBoolStr data.is_played ++ " (already set)",
        by simp [executeSync, needsSmartCheck, hskip],
        Or.inl (strEndsWith_append_of _ " (already set)" "(already set)" (by decide))⟩
    · have hskip : smartSyncSkip u .favorite data =
          some ("favorite=" ++ pyOptBoolStr data.is_favorite ++ " (already set)") := by
        simp [smartSyncSkip, hc]
      refine ⟨by simp [executeSync, needsSmartCheck, hskip],
        by simp [executeSync, needsSmartCheck, hskip],
        "favorite=" ++ pyOptBoolStr data.is_favorite ++ " (already set)",
        by simp [executeSync, needsSmartCheck, hskip],
        Or.inl (strEndsWith_append_of _ " (already set)" "(already set)" (by decide))⟩
    · have hskip : smartSyncSkip u .likes data =
          some ("likes=" ++ pyOptBoolStr data.likes ++ " (already set)") := by
        simp [smartSyncSkip, hc]
      refine ⟨by simp [executeSync, needsSmartCheck, hskip],
        by simp [executeSync, needsSmartCheck, hskip],
        "likes=" ++ pyOptBoolStr data.likes ++ " (already set)",
        by simp [executeSync, needsSmartCheck, hskip],
        Or.inl (strEndsWith_append_of _ " (already set)" "(already set)" (by decide))⟩
    · have hskip : smartSyncSkip u .audio_stream data =
          some ("audio_stream=" ++ pyOptIntStr data.audio_stream_index ++
            " (already set)") := by
        simp [smartSyncSkip, hc]
      refine ⟨by simp [executeSync, needsSmartCheck, hskip],
        by simp [executeSync, needsSmartCheck, hskip],
        "audio_stream=" ++ pyOptIntStr data.audio_stream_index ++
            " (already set)",
        by simp [executeSync, needsSmartCheck, hskip],
        Or.inl (strEndsWith_append_of _ " (already set)" "(already set)" (by decide))⟩
    · have hskip : smartSyncSkip u .subtitle_stream data =
          some ("subtitle_stream=" ++ pyOptIntStr data.subtitle_stream_index ++
            " (already set)") := by
        simp [smartSyncSkip, hc]
      refine ⟨by simp [executeSync, needsSmartCheck, hskip],
        by simp [executeSync, needsSmartCheck, hskip],
        "subtitle_stream=" ++ pyOptIntStr data.subtitle_stream_index ++
            " (already set)",
        by simp [executeSync, needsSmartCheck, hskip],
        Or.inl (strEndsWith_append_of _ " (already set)" "(already set)" (by decide))⟩
    · have hskip : smartSyncSkip u .play_count data =
          some ("play_count=" ++ toString (u.PlayCount.getD 0) ++ " (target >= source)") := by
        simp [smartSyncSkip, hc]
      refine ⟨by simp [executeSync, needsSmartCheck, hskip],
        by simp [executeSync, needsSmartCheck, hskip],
        "play_count=" ++ toString (u.PlayCount.getD 0) ++ " (target >= source)",
        by simp [executeSync, needsSmartCheck, hskip],
        Or.inr (Or.inl (strEndsWith_append_of _ " (target >= source)" "(target >= source)" (by decide)))⟩
    · have hskip : smartSyncSkip u .last_played data =
          some ("last_played=" ++ strTake (u.LastPlayedDate.getD "") 10 ++
            " (target newer)") := by
        simp [smartSyncSkip, hc1, hc2, hc3]
      refine ⟨by simp [executeSync, needsSmartCheck, hskip],
        by simp [executeSync, needsSmartCheck, hskip],
        "last_played=" ++ strTake (u.LastPlayedDate.getD "") 10 ++
            " (target newer)",
        by simp [executeSync, needsSmartCheck, hskip],
        Or.inr (Or.inr (strEndsWith_append_of _ " (target newer)" "(target newer)" (by decide)))⟩
  · intro hticks hdry
    cases cud with
    | none => simp [executeSync, needsSmartCheck, smartSyncSkip, chooseMutation, hticks, hdry]
    | some u2 => simp [executeSync, needsSmartCheck, smartSyncSkip, chooseMutation, hticks, hdry]

theorem claim_C6_amended_witness :
    (executeSync {} (some { Played := some true }) "u" "i" .watched
      { is_played := some true } true).call = none ∧
    (executeSync {} (some { Played := some true }) "u" "i" .watched
      { is_played := some true } true).success = true := by
  have h := (claim_C6_amended {} { Played := some true } none "u" "i" .watched
    { is_played := some true } true 0).1 (Or.inl ⟨rfl, by decide⟩)
  exact ⟨h.1, h.2.1⟩

/-! ## C7: UserDataSaved parsing -/

/-- C7 counterexample.  A `UserDataSaved` envelope carrying a present but
empty `LastPlayedDate` has the field present and the feature enabled, yet the
parser emits no LAST_PLAYED record (the source tests that field with Python
truthiness, unlike the `is not None` tests of the other six features). -/
theorem claim_C7_counterexample :
    ({ event := "UserDataSaved", last_played_date := some "" :
      WebhookPayload }).last_played_date.isSome = true ∧
    ({} : Config).sync.last_played_date = true ∧
    (parseWebhookToEventData {} { event := "UserDataSaved", last_played_date := some "" }
      "wan" 0 []).1.countP (fun r => decide (r.event_type = .last_played)) = 0 := by
  refine ⟨rfl, rfl, by decide⟩

/-- The qualifying condition of the amended claim, per feature: the feature flag is
enabled and the envelope field is present (non-null), except LAST_PLAYED,
which additionally requires a non-empty value. -/
def featureQualifies (cfg : Config) (payload : WebhookPayload) : SyncEventType → Bool
  | .watched => cfg.sync.watched_status && payload.is_played.isSome
  | .favorite => cfg.sync.favorites && payload.is_favorite.isSome
  | .likes => cfg.sync.likes && payload.likes.isSome
  | .play_count => cfg.sync.play_count && payload.play_count.isSome
  | .last_played => cfg.sync.last_played_date && optStrTruthy payload.last_played_date
  | .audio_stream => cfg.sync.audio_stream && payload.audio_stream_index.isSome
  | .subtitle_stream => cfg.sync.subtitle_stream && payload.subtitle_stream_index.isSome
  | _ => false

lemma countP_ite_block (p : EventRecord → Bool) (c : Prop) [Decidable c] (r : EventRecord) :
    (if c then [r] else []).countP p = if c then (if p r then 1 else 0) else 0 := by
  split <;> simp [List.countP_cons]

/-- C7 amended.  For every `UserDataSaved` envelope: when `save_reason` is
`"Import"` the parser emits nothing; otherwise it emits exactly one record per
feature whose flag is enabled and whose field is present (non-null) — with
LAST_PLAYED requiring a non-empty value — and no record for any other event
type. -/
theorem claim_C7_amended (cfg : Config) (payload : WebhookPayload) (source_server : String)
    (now : Int) (lp : List (String × Int)) (he : payload.event = "UserDataSaved") :
    (payload.save_reason = some "Import" →
      (parseWebhookToEventData cfg payload source_server now lp).1 = []) ∧
    (¬payload.save_reason = some "Import" →
      ∀ et, (parseWebhookToEventData cfg payload source_server now lp).1.countP
          (fun r => decide (r.event_type = et)) =
        if featureQualifies cfg payload et then 1 else 0) := by
  have h1 : ¬(payload.event = "PlaybackStop" ∧ payload.played_to_completion = true) := by
    rw [he]
    rintro ⟨hx, -⟩
    exact absurd hx (by decide)
  have h2 : ¬payload.event = "PlaybackProgress" := by
    rw [he]
    decide
  constructor
  · intro hsr
    simp only [parseWebhookToEventData, if_neg h1, if_neg h2, if_pos he, if_pos hsr]
  · intro hsr et
    simp only [parseWebhookToEventData, if_neg h1, if_neg h2, if_pos he, if_neg hsr]
    cases et <;>
      simp [List.countP_append, countP_ite_block, featureQualifies, Bool.and_eq_true]

/-- A concrete `UserDataSaved` payload used to witness C7. -/
def payC7w : WebhookPayload :=
  { event := "UserDataSaved", username := "u", item_id := "i", is_played := some true,
    likes := some false }

theorem claim_C7_amended_witness :
    (parseWebhookToEventData {} payC7w "wan" 0 []).1.countP
        (fun r => decide (r.event_type = .watched)) =
      if featureQualifies {} payC7w .watched then 1 else 0 :=
  (claim_C7_amended {} payC7w "wan" 0 [] rfl).2 (by decide) .watched

/-! ## C8: progress debounce -/

lemma lookup_dictSet_self (k : String) (v : Int) (m : List (String × Int)) :
    List.lookup k (dictSet k v m) = some v := by
  simp [dictSet, List.lookup]

/-- C8.  Two `PlaybackProgress` webhooks with positive position from the same
(source server, username, item id), the second arriving within the debounce
window of the first (and no earlier progress timestamp recorded for the key):
the first yields exactly one PROGRESS intent carrying its own
`position_ticks`, and the second yields no record and leaves the debounce
state unchanged. -/
theorem claim_C8_progress_debounce (cfg : Config) (source_server : String)
    (p1 p2 : WebhookPayload) (t1 t2 : Int) (lp0 : List (String × Int)) (n1 n2 : Int)
    (hflag : cfg.sync.playback_progress = true)
    (he1 : p1.event = "PlaybackProgress") (he2 : p2.event = "PlaybackProgress")
    (ht1 : p1.playback_position_ticks = some n1) (hpos1 : 0 < n1)
    (ht2 : p2.playback_position_ticks = some n2) (hpos2 : 0 < n2)
    (hu : p2.username = p1.username) (hi : p2.item_id = p1.item_id)
    (hfresh : List.lookup (progressDebounceKey source_server p1) lp0 = none)
    (hwin : t2 - t1 < cfg.sync.progress_debounce_seconds) :
    parseWebhookToEventData cfg p1 source_server t1 lp0 =
      ([⟨.progress, { position_ticks := some n1 }⟩],
        updateProgressTimestamp (progressDebounceKey source_server p1) t1 lp0) ∧
    parseWebhookToEventData cfg p2 source_server t2
        (updateProgressTimestamp (progressDebounceKey source_server p1) t1 lp0) =
      ([], updateProgressTimestamp (progressDebounceKey source_server p1) t1 lp0) := by
  have hkey : progressDebounceKey source_server p2 =
      progressDebounceKey source_server p1 := by
    simp [progressDebounceKey, hu, hi]
  have hstop1 : ¬(p1.event = "PlaybackStop" ∧ p1.played_to_completion = true) := by
    rw [he1]
    rintro ⟨hx, -⟩
    exact absurd hx (by decide)
  have hstop2 : ¬(p2.event = "PlaybackStop" ∧ p2.played_to_completion = true) := by
    rw [he2]
    rintro ⟨hx, -⟩
    exact absurd hx (by decide)
  have htr1 : optIntTruthy p1.playback_position_ticks = true := by
    rw [ht1]
    simp [optIntTruthy]
    omega
  have htr2 : optIntTruthy p2.playback_position_ticks = true := by
    rw [ht2]
    simp [optIntTruthy]
    omega
  constructor
  · have hshould : shouldSyncProgress cfg (progressDebounceKey source_server p1) t1 lp0 =
        true := by
      simp [shouldSyncProgress, hfresh]
    simp only [parseWebhookToEventData, if_neg hstop1, if_pos he1,
      if_pos (And.intro hflag htr1), if_pos hshould, ht1]
    rw [if_pos (And.intro hflag (ht1 ▸ htr1))]
  · have hlook : List.lookup (progressDebounceKey source_server p2)
        (updateProgressTimestamp (progressDebounceKey source_server p1) t1 lp0) =
        some t1 := by
      rw [hkey]
      exact lookup_dictSet_self _ _ _
    have hshould : shouldSyncProgress cfg (progressDebounceKey source_server p2) t2
        (updateProgressTimestamp (progressDebounceKey source_server p1) t1 lp0) =
        false := by
      simp only [shouldSyncProgress, hlook]
      simp
      omega
    simp only [parseWebhookToEventData, if_neg hstop2, if_pos he2,
      if_pos (And.intro hflag htr2), if_neg (by rw [hshould]; decide :
        ¬shouldSyncProgress cfg (progressDebounceKey source_server p2) t2
          (updateProgressTimestamp (progressDebounceKey source_server p1) t1 lp0) = true)]

/-- A concrete progress payload used to witness C8. -/
def payC8 (ticks : Int) : WebhookPayload :=
  { event := "PlaybackProgress", username := "u", item_id := "i",
    playback_position_ticks := some ticks }

theorem claim_C8_progress_debounce_witness :
    parseWebhookToEventData {} (payC8 36000000000) "wan" 0 [] =
      ([⟨.progress, { position_ticks := some 36000000000 }⟩],
        updateProgressTimestamp (progressDebounceKey "wan" (payC8 36000000000)) 0 []) ∧
    parseWebhookToEventData {} (payC8 36300000000) "wan" 5
        (updateProgressTimestamp (progressDebounceKey "wan" (payC8 36000000000)) 0 []) =
      ([], updateProgressTimestamp (progressDebounceKey "wan" (payC8 36000000000)) 0 []) :=
  claim_C8_progress_debounce {} "wan" (payC8 36000000000) (payC8 36300000000) 0 5 []
    36000000000 36300000000 rfl rfl rfl rfl (by decide) rfl (by decide) rfl rfl rfl
    (by decide)

/-! ## C1: queue dedup invariant -/

/-- At most one non-terminal row per dedup key
`(event_type, target_server, username, item_id)`. -/
def dedupInv (db : DBState) : Prop :=
  ∀ (et : SyncEventType) (ts u iid : String),
    db.pending_events.countP (rowMatchesKey et ts u iid) ≤ 1

lemma countP_append_single_le (l : List PendingRow) (r : PendingRow) (p : PendingRow → Bool)
    (h1 : p r = true → l.countP p = 0) (h2 : l.countP p ≤ 1) :
    (l ++ [r]).countP p ≤ 1 := by
  rw [List.countP_append]
  by_cases hp : p r = true
  · rw [h1 hp]
    simp [List.countP_cons, hp]
  · have hf : p r = false := by simpa using hp
    simp [List.countP_cons, hf, h2]

lemma enqueueTargets_preserves_dedupInv (rec : EventRecord) (payload : WebhookPayload)
    (src : String) (targets : List ServerConfig) (now : Int) :
    ∀ acc : Nat × DBState, dedupInv acc.2 →
      dedupInv (enqueueTargets rec payload src targets now acc).2 := by
  intro acc hacc
  refine foldlPreserves (P := fun s : Nat × DBState => dedupInv s.2) ?_ targets acc hacc
  intro s target hs
  by_cases hdup : hasPendingEvent rec.event_type target.name payload.username
      payload.item_id s.2 = true
  · rw [if_pos hdup]
    exact hs
  · rw [if_neg hdup]
    intro et ts u iid
    show (s.2.pending_events ++
      [({ id := s.2.next_id, event_type := rec.event_type, source_server := src,
          target_server := target.name, username := payload.username,
          user_id := payload.user_id, item_id := payload.item_id,
          item_name := payload.item_name, item_path := payload.item_path,
          provider_imdb := payload.provider_imdb, provider_tmdb := payload.provider_tmdb,
          provider_tvdb := payload.provider_tvdb, event_data := rec.data,
          created_at := now, updated_at := now } : PendingRow)]).countP
      (rowMatchesKey et ts u iid) ≤ 1
    refine countP_append_single_le _ _ _ ?_ (hs et ts u iid)
    intro hm
    obtain ⟨k1, k2, k3, k4⟩ : rec.event_type = et ∧ target.name = ts ∧
        payload.username = u ∧ payload.item_id = iid := by
      simpa [rowMatchesKey, statusNonTerminal] using hm
    subst k1 k2 k3 k4
    exact countP_eq_zero_of_any_false _ _ (by simpa [hasPendingEvent] using hdup)

lemma enqueueEvents_preserves_dedupInv (cfg : Config) (e : EngineState) (db : DBState)
    (payload : WebhookPayload) (src : String) (now : Int) (h : dedupInv db) :
    dedupInv (enqueueEvents cfg e db payload src now).db := by
  have hdb1 : dedupInv (upsertUserMapping payload.username src payload.user_id now db) :=
    fun et ts u iid => h et ts u iid
  simp only [enqueueEvents]
  split
  · exact hdb1
  · exact foldlPreserves (P := fun s : Nat × DBState => dedupInv s.2)
      (fun s rec hs =>
        enqueueTargets_preserves_dedupInv rec payload src (cfg.getOtherServers src) now s hs)
      _ _ hdb1

/-- Database-and-engine states reachable from the empty queue by
`enqueue_events` calls alone. -/
inductive EnqueueReachable (cfg : Config) : EngineState → DBState → Prop where
  | init : EnqueueReachable cfg {} emptyDB
  | step (e : EngineState) (db : DBState) (payload : WebhookPayload) (src : String)
      (now : Int) : EnqueueReachable cfg e db →
      EnqueueReachable cfg (enqueueEvents cfg e db payload src now).engine
        (enqueueEvents cfg e db payload src now).db

/-- C1.  For every dedup key `(event_type, target_server, username, item_id)`
and every sequence of `enqueue_events` calls starting from an empty queue, at
most one `pending_events` row matching that key in a non-terminal state
exists: `enqueue_events` inserts only after `has_pending_event` reports no
existing non-terminal row with the same key. -/
theorem claim_C1_dedup_invariant (cfg : Config) (e : EngineState) (db : DBState)
    (h : EnqueueReachable cfg e db) :
    ∀ (et : SyncEventType) (ts u iid : String),
      db.pending_events.countP (rowMatchesKey et ts u iid) ≤ 1 := by
  induction h with
  | init => intro et ts u iid; simp [emptyDB]
  | step e db payload src now hr ih =>
    exact enqueueEvents_preserves_dedupInv cfg e db payload src now ih

/-- Configuration with three peers used to witness C1 and C2. -/
def cfg3w : Config :=
  { servers := [⟨"wan", "", "", false⟩, ⟨"lan", "", "", false⟩, ⟨"backup", "", "", false⟩] }

/-- A completed-playback webhook payload used to witness C1 and C2. -/
def payS1w : WebhookPayload :=
  { event := "PlaybackStop", user_id := "u1", username := "testuser", item_id := "item-456",
    item_name := "Test Movie", item_path := some "/movies/test.mkv",
    played_to_completion := true, provider_imdb := some "tt1234567" }

theorem claim_C1_dedup_invariant_witness :
    (enqueueEvents cfg3w {} emptyDB payS1w "wan" 100).db.pending_events.countP
      (rowMatchesKey .watched "lan" "testuser" "item-456") ≤ 1 :=
  claim_C1_dedup_invariant cfg3w (enqueueEvents cfg3w {} emptyDB payS1w "wan" 100).engine
    (enqueueEvents cfg3w {} emptyDB payS1w "wan" 100).db
    (EnqueueReachable.step {} emptyDB payS1w "wan" 100 EnqueueReachable.init)
    .watched "lan" "testuser" "item-456"

/-! ## C2: cooldown loop suppression -/

lemma hasPendingEvent_addPendingEvent (et : SyncEventType) (ts u iid : String)
    (et2 : SyncEventType) (src tgt u2 uid2 iid2 iname2 : String) (data : EventData)
    (path imdb tmdb tvdb : Option String) (now : Int) (db : DBState) (hne : ¬tgt = ts) :
    hasPendingEvent et ts u iid
      (addPendingEvent et2 src tgt u2 uid2 iid2 iname2 data path imdb tmdb tvdb now db) =
    hasPendingEvent et ts u iid db := by
  simp only [hasPendingEvent, addPendingEvent, List.any_append, List.any_cons, List.any_nil,
    Bool.or_false]
  have hz : rowMatchesKey et ts u iid
      { id := db.next_id, event_type := et2, source_server := src, target_server := tgt,
        username := u2, user_id := uid2, item_id := iid2, item_name := iname2,
        item_path := path, provider_imdb := imdb, provider_tmdb := tmdb,
        provider_tvdb := tvdb, event_data := data, created_at := now, updated_at := now } =
      false := by
    simp [rowMatchesKey, statusNonTerminal, hne]
  rw [hz, Bool.or_false]

lemma enqueueTargets_count (rec : EventRecord) (payload : WebhookPayload) (src : String)
    (now : Int) :
    ∀ (targets : List ServerConfig) (n : Nat) (db : DBState),
      (targets.map (fun s => s.name)).Nodup →
      (enqueueTargets rec payload src targets now (n, db)).1 =
        n + targets.countP (fun tg =>
          !(hasPendingEvent rec.event_type tg.name payload.username payload.item_id db)) := by
  intro targets
  induction targets with
  | nil =>
    intro n db _
    simp [enqueueTargets]
  | cons tg rest ih =>
    intro n db hnodup
    rw [List.map_cons, List.nodup_cons] at hnodup
    obtain ⟨hnotmem, hnd⟩ := hnodup
    rw [show enqueueTargets rec payload src (tg :: rest) now (n, db) =
        enqueueTargets rec payload src rest now
          (if hasPendingEvent rec.event_type tg.name payload.username payload.item_id db
           then (n, db)
           else (n + 1, addPendingEvent rec.event_type src tg.name payload.username
             payload.user_id payload.item_id payload.item_name rec.data payload.item_path
             payload.provider_imdb payload.provider_tmdb payload.provider_tvdb now db))
      from rfl]
    by_cases hdup : hasPendingEvent rec.event_type tg.name payload.username payload.item_id
        db = true
    · rw [if_pos hdup, ih n db hnd, List.countP_cons]
      simp [hdup]
    · have hdupf : hasPendingEvent rec.event_type tg.name payload.username payload.item_id
          db = false := by simpa using hdup
      rw [if_neg hdup, ih (n + 1) _ hnd]
      have hcong : rest.countP (fun tg2 =>
            !(hasPendingEvent rec.event_type tg2.name payload.username payload.item_id
              (addPendingEvent rec.event_type src tg.name payload.username payload.user_id
                payload.item_id payload.item_name rec.data payload.item_path
                payload.provider_imdb payload.provider_tmdb payload.provider_tvdb now db))) =
          rest.countP (fun tg2 =>
            !(hasPendingEvent rec.event_type tg2.name payload.username payload.item_id db)) := by
        apply List.countP_congr
        intro tg2 hmem
        have hne : ¬tg.name = tg2.name := by
          intro he
          exact hnotmem (he ▸ List.mem_map_of_mem (fun s => s.name) hmem)
        rw [hasPendingEvent_addPendingEvent _ _ _ _ _ _ _ _ _ _ _ _ _ _ _ _ _ _ hne]
      rw [hcong, List.countP_cons]
      simp only [hdupf, Bool.not_false, if_pos]
      omega

lemma cleanup_dictSet_in (key : String) (t now : Int) (cd0 : List (String × Int))
    (hlt : now < t) :
    cleanupExpiredCooldowns now (dictSet key t cd0) =
      (key, t) :: cleanupExpiredCooldowns now (dictDel key cd0) := by
  simp [cleanupExpiredCooldowns, dictSet, dictDel, List.filter_cons, hlt]

lemma cleanup_dictSet_out (key : String) (t now : Int) (cd0 : List (String × Int))
    (hge : t ≤ now) :
    cleanupExpiredCooldowns now (dictSet key t cd0) =
      cleanupExpiredCooldowns now (dictDel key cd0) := by
  have hn : ¬now < t := not_lt.mpr hge
  simp [cleanupExpiredCooldowns, dictSet, dictDel, List.filter_cons, hn]

lemma lookup_cleanup_dictDel (key : String) (now : Int) (cd0 : List (String × Int)) :
    List.lookup key (cleanupExpiredCooldowns now (dictDel key cd0)) = none := by
  apply lookup_eq_none_of_all_ne
  intro kv hkv
  have h1 : kv ∈ dictDel key cd0 := (List.mem_filter.mp hkv).1
  have h2 := (List.mem_filter.mp h1).2
  simpa using h2

lemma isInCooldown_active (server username : String) (item_path : Option String)
    (et : SyncEventType) (imdb tmdb tvdb : Option String) (K : String) (now expiry : Int)
    (cds : List (String × Int))
    (hK : getItemIdentityKey item_path imdb tmdb tvdb = K) (hKne : ¬K = "")
    (hlook : List.lookup (cooldownDictKey server username K et) cds = some expiry)
    (hactive : ¬expiry ≤ now) :
    isInCooldown server username item_path et imdb tmdb tvdb now cds = (true, cds) := by
  simp only [isInCooldown, hK]
  rw [if_neg hKne]
  simp only [hlook]
  rw [if_neg hactive]

lemma isInCooldown_miss (server username : String) (item_path : Option String)
    (et : SyncEventType) (imdb tmdb tvdb : Option String) (K : String) (now : Int)
    (cds : List (String × Int))
    (hK : getItemIdentityKey item_path imdb tmdb tvdb = K) (hKne : ¬K = "")
    (hlook : List.lookup (cooldownDictKey server username K et) cds = none) :
    isInCooldown server username item_path et imdb tmdb tvdb now cds = (false, cds) := by
  simp only [isInCooldown, hK]
  rw [if_neg hKne]
  simp only [hlook]

lemma filterCooldown_single (src : String) (payload : WebhookPayload) (rec : EventRecord)
    (now : Int) (cds : List (String × Int)) :
    filterCooldownRecords src payload [rec] now cds =
      (if (isInCooldown src payload.username payload.item_path rec.event_type
            payload.provider_imdb payload.provider_tmdb payload.provider_tvdb now cds).1
       then []
       else [rec],
       (isInCooldown src payload.username payload.item_path rec.event_type
         payload.provider_imdb payload.provider_tmdb payload.provider_tvdb now cds).2) := by
  simp [filterCooldownRecords]

/-- C2.  After the worker success hook sets the cooldown for event `E`, user
`U`, target peer `P`, and item identity `K` at time `t`, a webhook from `P`
that parses to exactly event `E` for `U` with the same identity key enqueues
zero rows (and leaves the queue untouched) while `now < t + 30`; once
`t + 30 ≤ now`, the same webhook produces the normal fan-out: one row per
configured peer other than `P`, subject to queue dedup. -/
theorem claim_C2_cooldown_suppression (cfg : Config) (cd0 lp lp2 : List (String × Int))
    (db : DBState) (payload : WebhookPayload) (P U : String) (E : SyncEventType)
    (path imdb tmdb tvdb : Option String) (K : String) (t now : Int) (rec : EventRecord)
    (hK : getItemIdentityKey path imdb tmdb tvdb = K)
    (hK2 : getItemIdentityKey payload.item_path payload.provider_imdb payload.provider_tmdb
      payload.provider_tvdb = K)
    (hKne : ¬K = "")
    (hU : payload.username = U)
    (hparse : parseWebhookToEventData cfg payload P now lp = ([rec], lp2))
    (hE : rec.event_type = E)
    (hnodup : ((cfg.getOtherServers P).map (fun s => s.name)).Nodup) :
    (now < t + SYNC_COOLDOWN_SECONDS →
      (enqueueEvents cfg ⟨onSyncSuccess P U path E imdb tmdb tvdb t cd0, lp⟩ db payload P
        now).enqueued = 0 ∧
      (enqueueEvents cfg ⟨onSyncSuccess P U path E imdb tmdb tvdb t cd0, lp⟩ db payload P
        now).db.pending_events = db.pending_events) ∧
    (t + SYNC_COOLDOWN_SECONDS ≤ now →
      (enqueueEvents cfg ⟨onSyncSuccess P U path E imdb tmdb tvdb t cd0, lp⟩ db payload P
        now).enqueued =
        (cfg.getOtherServers P).countP (fun tg =>
          !(hasPendingEvent E tg.name payload.username payload.item_id db))) := by
  have hset : onSyncSuccess P U path E imdb tmdb tvdb t cd0 =
      dictSet (cooldownDictKey P U K E) (t + SYNC_COOLDOWN_SECONDS) cd0 := by
    simp [onSyncSuccess, setCooldown, hK, hKne]
  constructor
  · intro hlt
    have hclean : cleanupExpiredCooldowns now (onSyncSuccess P U path E imdb tmdb tvdb t
        cd0) = (cooldownDictKey P U K E, t + SYNC_COOLDOWN_SECONDS) ::
          cleanupExpiredCooldowns now (dictDel (cooldownDictKey P U K E) cd0) := by
      rw [hset]
      exact cleanup_dictSet_in _ _ _ _ hlt
    have hlook : List.lookup (cooldownDictKey P payload.username K rec.event_type)
        ((cooldownDictKey P U K E, t + SYNC_COOLDOWN_SECONDS) ::
          cleanupExpiredCooldowns now (dictDel (cooldownDictKey P U K E) cd0)) =
        some (t + SYNC_COOLDOWN_SECONDS) := by
      rw [hU, hE]
      simp [List.lookup]
    have hcool := isInCooldown_active P payload.username payload.item_path rec.event_type
      payload.provider_imdb payload.provider_tmdb payload.provider_tvdb K now
      (t + SYNC_COOLDOWN_SECONDS) _ hK2 hKne hlook (by omega)
    have hfilt : filterCooldownRecords P payload [rec] now
        ((cooldownDictKey P U K E, t + SYNC_COOLDOWN_SECONDS) ::
          cleanupExpiredCooldowns now (dictDel (cooldownDictKey P U K E) cd0)) =
        ([], (cooldownDictKey P U K E, t + SYNC_COOLDOWN_SECONDS) ::
          cleanupExpiredCooldowns now (dictDel (cooldownDictKey P U K E) cd0)) := by
      rw [filterCooldown_single, hcool]
      simp
    constructor
    · simp [enqueueEvents, hclean, hparse, hfilt]
    · simp only [enqueueEvents, hclean, hparse, hfilt]
      simp
      rfl
  · intro hge
    have hclean : cleanupExpiredCooldowns now (onSyncSuccess P U path E imdb tmdb tvdb t
        cd0) = cleanupExpiredCooldowns now (dictDel (cooldownDictKey P U K E) cd0) := by
      rw [hset]
      exact cleanup_dictSet_out _ _ _ _ (by omega)
    have hlook : List.lookup (cooldownDictKey P payload.username K rec.event_type)
        (cleanupExpiredCooldowns now (dictDel (cooldownDictKey P U K E) cd0)) = none := by
      rw [hU, hE]
      exact lookup_cleanup_dictDel _ _ _
    have hcool := isInCooldown_miss P payload.username payload.item_path rec.event_type
      payload.provider_imdb payload.provider_tmdb payload.provider_tvdb K now _ hK2 hKne
      hlook
    have hfilt : filterCooldownRecords P payload [rec] now
        (cleanupExpiredCooldowns now (dictDel (cooldownDictKey P U K E) cd0)) =
        ([rec], cleanupExpiredCooldowns now (dictDel (cooldownDictKey P U K E) cd0)) := by
      rw [filterCooldown_single, hcool]
      simp
    have hcount := enqueueTargets_count rec payload P now (cfg.getOtherServers P) 0
      (upsertUserMapping payload.username P payload.user_id now db) hnodup
    have hcong : (cfg.getOtherServers P).countP (fun tg =>
          !(hasPendingEvent rec.event_type tg.name payload.username payload.item_id
            (upsertUserMapping payload.username P payload.user_id now db))) =
        (cfg.getOtherServers P).countP (fun tg =>
          !(hasPendingEvent E tg.name payload.username payload.item_id db)) := by
      apply List.countP_congr
      intro tg _
      rw [hE]
      exact Iff.rfl
    simp only [enqueueEvents, hclean, hparse, hfilt]
    simp only [List.isEmpty_cons, List.foldl_cons, List.foldl_nil]
    rw [if_neg (by decide : ¬false = true)]
    rw [hcount, hcong]
    simp

theorem claim_C2_cooldown_suppression_witness :
    (enqueueEvents cfg3w ⟨onSyncSuccess "lan" "testuser" (some "/movies/test.mkv") .watched
        (some "tt1234567") none none 100 [], []⟩ emptyDB payS1w "lan" 110).enqueued = 0 :=
  ((claim_C2_cooldown_suppression cfg3w [] [] [] emptyDB payS1w "lan" "testuser" .watched
    (some "/movies/test.mkv") (some "tt1234567") none none "path:/movies/test.mkv" 100 110
    ⟨.watched, { is_played := some true }⟩ (by decide) (by decide) (by decide) rfl
    (by decide) rfl (by decide)).1 (by decide)).1

end JellyfinDbSync
